import Mathlib

/-!
Shallow embedding of the gesture classification engine of
src/core/input/providers/mediapipe.js (the enhanced MediaPipeProvider:
detectStaticGesture, detectWaveGesture, detectSwipeGesture,
isFingerExtendedImproved, the geometry utilities and the dispatch logic of
handleResults).

Modelling conventions:
- Coordinates and timestamps are real numbers; every finite JavaScript
  arithmetic step is exact real arithmetic.
- A JavaScript property access on a missing array element throws a
  TypeError; this is modelled by Option: a `none` result of
  detectStaticGesture / processHandFrame is a thrown exception.  The throw
  in the source happens before any per-hand state is written, so the model
  commits no state on `none`.
- The swipe velocity computation divides by an elapsed time that can be
  zero; JavaScript then produces Infinity or NaN.  That one path is
  modelled faithfully by the JsNum type (an IEEE-754-style extended
  number); all other arithmetic in the engine stays within finite values
  for well-formed inputs.
- The per-hand dictionaries keyed by handId are modelled as the state of a
  single hand, threaded explicitly through each per-frame step.
-/

/-- A JavaScript number as the swipe velocity path can produce it: a
finite real, one of the two infinities, or NaN. -/
inductive JsNum where
  | finite (val : ℝ)
  | inf
  | negInf
  | nan

/-- JavaScript division of two finite numbers (`deltaX / timeDiff` in
detectSwipeGesture): division by zero yields an infinity, 0/0 yields NaN. -/
noncomputable def jsDiv (a b : ℝ) : JsNum :=
  if b = 0 then (if a = 0 then JsNum.nan else if a > 0 then JsNum.inf else JsNum.negInf)
  else JsNum.finite (a / b)

/-- JavaScript Math.abs on an extended number. -/
noncomputable def jsAbs : JsNum → JsNum
  | JsNum.finite v => JsNum.finite |v|
  | JsNum.inf => JsNum.inf
  | JsNum.negInf => JsNum.inf
  | JsNum.nan => JsNum.nan

/-- JavaScript multiplication on extended numbers (IEEE-754 rules). -/
noncomputable def jsMul : JsNum → JsNum → JsNum
  | JsNum.nan, _ => JsNum.nan
  | _, JsNum.nan => JsNum.nan
  | JsNum.finite a, JsNum.finite b => JsNum.finite (a * b)
  | JsNum.finite a, JsNum.inf =>
    if a = 0 then JsNum.nan else if a > 0 then JsNum.inf else JsNum.negInf
  | JsNum.inf, JsNum.finite b =>
    if b = 0 then JsNum.nan else if b > 0 then JsNum.inf else JsNum.negInf
  | JsNum.finite a, JsNum.negInf =>
    if a = 0 then JsNum.nan else if a > 0 then JsNum.negInf else JsNum.inf
  | JsNum.negInf, JsNum.finite b =>
    if b = 0 then JsNum.nan else if b > 0 then JsNum.negInf else JsNum.inf
  | JsNum.inf, JsNum.inf => JsNum.inf
  | JsNum.inf, JsNum.negInf => JsNum.negInf
  | JsNum.negInf, JsNum.inf => JsNum.negInf
  | JsNum.negInf, JsNum.negInf => JsNum.inf

/-- JavaScript addition on extended numbers (IEEE-754 rules). -/
noncomputable def jsAdd : JsNum → JsNum → JsNum
  | JsNum.nan, _ => JsNum.nan
  | _, JsNum.nan => JsNum.nan
  | JsNum.finite a, JsNum.finite b => JsNum.finite (a + b)
  | JsNum.inf, JsNum.negInf => JsNum.nan
  | JsNum.negInf, JsNum.inf => JsNum.nan
  | JsNum.inf, _ => JsNum.inf
  | _, JsNum.inf => JsNum.inf
  | JsNum.negInf, _ => JsNum.negInf
  | _, JsNum.negInf => JsNum.negInf

/-- JavaScript Math.sqrt on an extended number. -/
noncomputable def jsSqrt : JsNum → JsNum
  | JsNum.finite v => if v < 0 then JsNum.nan else JsNum.finite (Real.sqrt v)
  | JsNum.inf => JsNum.inf
  | JsNum.negInf => JsNum.nan
  | JsNum.nan => JsNum.nan

/-- The JavaScript comparison `v > c` for an extended number v against a
finite threshold c (false on NaN). -/
noncomputable def jsGt : JsNum → ℝ → Bool
  | JsNum.finite v, c => decide (v > c)
  | JsNum.inf, _ => true
  | JsNum.negInf, _ => false
  | JsNum.nan, _ => false

/-- Number.isFinite. -/
def JsNum.isFinite : JsNum → Bool
  | JsNum.finite _ => true
  | _ => false

/-- A 3D point or vector with x, y, z components (a MediaPipe landmark). -/
structure Vec3 where
  x : ℝ
  y : ℝ
  z : ℝ

/-- vectorBetween(a, b) from the source: the vector from a to b. -/
def vectorBetween (a b : Vec3) : Vec3 :=
  ⟨b.x - a.x, b.y - a.y, b.z - a.z⟩

/-- distance3D(a, b): 3D Euclidean distance. -/
noncomputable def distance3D (a b : Vec3) : ℝ :=
  Real.sqrt ((a.x - b.x) ^ 2 + (a.y - b.y) ^ 2 + (a.z - b.z) ^ 2)

/-- normalizeVector(v): unit vector, the zero vector when the length is 0. -/
noncomputable def normalizeVector (v : Vec3) : Vec3 :=
  let length := Real.sqrt (v.x * v.x + v.y * v.y + v.z * v.z)
  if length = 0 then ⟨0, 0, 0⟩ else ⟨v.x / length, v.y / length, v.z / length⟩

/-- dotProduct(a, b). -/
def dotProduct (a b : Vec3) : ℝ :=
  a.x * b.x + a.y * b.y + a.z * b.z

/-- isFingerExtendedImproved(landmarks, fingerIndex) from the source
(fingerIndex 1 = index, 2 = middle, 3 = ring, 4 = pinky).  `none` models
the TypeError thrown when a required landmark is missing from the array. -/
noncomputable def isFingerExtendedImproved (landmarks : List Vec3) (fingerIndex : ℕ) :
    Option Bool :=
  match landmarks.get? 0, landmarks.get? (fingerIndex * 4 + 1),
      landmarks.get? (fingerIndex * 4 + 2), landmarks.get? (fingerIndex * 4 + 3),
      landmarks.get? (fingerIndex * 4 + 4) with
  | some wrist, some mcp, some pip, some dip, some tip =>
    let tipToWristDist := distance3D tip wrist
    let mcpToWristDist := distance3D mcp wrist
    let distanceQuotient := tipToWristDist / mcpToWristDist
    let wristToMcpNorm := normalizeVector (vectorBetween wrist mcp)
    let mcpToPipNorm := normalizeVector (vectorBetween mcp pip)
    let pipToDipNorm := normalizeVector (vectorBetween pip dip)
    let _dipToTipNorm := normalizeVector (vectorBetween dip tip)
    let alignmentMcpPip := dotProduct wristToMcpNorm mcpToPipNorm
    let alignmentPipDip := dotProduct mcpToPipNorm pipToDipNorm
    if fingerIndex = 1 then
      match landmarks.get? 12 with
      | some middleTip =>
        let indexToMiddleDist := distance3D tip middleTip
        let mcpToMiddleDist := distance3D mcp middleTip
        some (decide (distanceQuotient > 1.1 ∨
          (alignmentMcpPip > 0.5 ∧ alignmentPipDip > 0.5) ∨
          indexToMiddleDist > mcpToMiddleDist * 0.7))
      | none => none
    else
      some (decide (distanceQuotient > 1.2 ∧ (alignmentMcpPip > 0.7 ∧ alignmentPipDip > 0.7)))
  | _, _, _, _, _ => none

/-- Per-hand pinch state (lastPinchDistance, isPinching, pinchStartTime). -/
structure PinchRec where
  lastPinchDistance : ℝ
  isPinching : Bool
  pinchStartTime : ℝ

/-- A gesture candidate as the source builds it. -/
structure Gesture where
  name : String
  direction : Option String := none
  strength : Option ℝ := none
  duration : Option ℝ := none
  speed : Option JsNum := none
  vector : Option (ℝ × ℝ × ℝ) := none
  confidence : ℝ

/-- The pointing-direction resolution of the POINT branch of
detectStaticGesture, as a function of the vector indexTip − wrist. -/
noncomputable def pointingDirection (dx dy dz : ℝ) : Option String :=
  let horizontalMag := |dx|
  let verticalMag := |dy|
  let depthMag := |dz|
  if depthMag > 0.05 ∧ depthMag > horizontalMag * 0.5 ∧ depthMag > verticalMag * 0.5 then
    some (if dz < 0 then "forward" else "backward")
  else if horizontalMag > 0.03 ∧ verticalMag > 0.03 then
    if dx > 0 ∧ dy < 0 then some "top-right"
    else if dx < 0 ∧ dy < 0 then some "top-left"
    else if dx > 0 ∧ dy > 0 then some "bottom-right"
    else if dx < 0 ∧ dy > 0 then some "bottom-left"
    else none
  else if horizontalMag > verticalMag then some (if dx > 0 then "right" else "left")
  else some (if dy > 0 then "down" else "up")

/-- The pure tail of detectStaticGesture once the four finger flags and the
wrist / index-tip / thumb-tip landmarks have been read from the array. -/
noncomputable def staticCore (indexE middleE ringE pinkyE : Bool)
    (wrist indexTip thumbTip : Vec3) (pst : Option PinchRec) (now : ℝ) :
    Option Gesture × PinchRec :=
  let thumbIndexDistance := distance3D thumbTip indexTip
  let st := pst.getD ⟨thumbIndexDistance, false, 0⟩
  let wasPinching := st.isPinching
  let newPinching : Bool :=
    if wasPinching = false ∧ thumbIndexDistance < 0.05 then true
    else if wasPinching = true ∧ thumbIndexDistance > 0.05 + 0.02 then false
    else wasPinching
  let newStart := if wasPinching = false ∧ thumbIndexDistance < 0.05 then now
    else st.pinchStartTime
  let st' : PinchRec := ⟨thumbIndexDistance, newPinching, newStart⟩
  if newPinching = true then
    (some { name := "pinch", strength := some (max 0 (1 - thumbIndexDistance / 0.05)),
            duration := some (now - newStart), confidence := 0.9 }, st')
  else if indexE = true ∧ middleE = false ∧ ringE = false ∧ pinkyE = false then
    let dx := indexTip.x - wrist.x
    let dy := indexTip.y - wrist.y
    let dz := indexTip.z - wrist.z
    (some { name := "point", direction := pointingDirection dx dy dz, confidence := 0.9,
            vector := some (dx, dy, dz) }, st')
  else if indexE = true ∧ middleE = true ∧ ringE = true ∧ pinkyE = true then
    (some { name := "open", confidence := 0.9 }, st')
  else if indexE = false ∧ middleE = false ∧ ringE = false ∧ pinkyE = false then
    (some { name := "grab", confidence := 0.9 }, st')
  else (none, st')

/-- detectStaticGesture(landmarks, handedness, handId) for one hand:
`none` models the TypeError thrown on a malformed landmark array (the
source reads all four finger flags and the wrist, index-tip and thumb-tip
entries before it writes any state); otherwise the gesture candidate and
the updated pinch state. -/
noncomputable def detectStaticGesture (landmarks : List Vec3) (pst : Option PinchRec)
    (now : ℝ) : Option (Option Gesture × PinchRec) :=
  match isFingerExtendedImproved landmarks 1, isFingerExtendedImproved landmarks 2,
      isFingerExtendedImproved landmarks 3, isFingerExtendedImproved landmarks 4,
      landmarks.get? 0, landmarks.get? 8, landmarks.get? 4 with
  | some iE, some mE, some rE, some pE, some wrist, some indexTip, some thumbTip =>
    some (staticCore iE mE rE pE wrist indexTip thumbTip pst now)
  | _, _, _, _, _, _, _ => none

/-- A wave/swipe direction symbol. -/
inductive WaveDir where
  | left
  | right
deriving DecidableEq

/-- One buffered wrist sample (x, y, timestamp). -/
structure WSample where
  x : ℝ
  y : ℝ
  time : ℝ

/-- Per-hand wave state (wavePositions, waveDirectionChanges, waveStartTime,
waveLastDirection). -/
structure WaveRec where
  positions : List WSample
  directionChanges : ℕ
  startTime : ℝ
  lastDirection : Option WaveDir

/-- detectWaveGesture(wrist, handId, handedness) for one hand: the updated
wave state and the wave gesture notified on this frame, if any. -/
noncomputable def detectWaveGesture (wrist : Vec3) (now : ℝ) (st0 : Option WaveRec) :
    WaveRec × Option Gesture :=
  let st := st0.getD ⟨[], 0, now, none⟩
  let positions := (st.positions ++ [(⟨wrist.x, wrist.y, now⟩ : WSample)]).dropWhile
    (fun p => decide (now - p.time > 2000))
  if positions.length < 3 then ({ st with positions := positions }, none)
  else
    let st1 := if now - st.startTime > 3000 then
        { st with directionChanges := 0, startTime := now, lastDirection := none }
      else st
    let current := positions.getD (positions.length - 1) ⟨0, 0, 0⟩
    let previous := positions.getD (positions.length - 3) ⟨0, 0, 0⟩
    let deltaX := current.x - previous.x
    if |deltaX| < 0.03 then ({ st1 with positions := positions }, none)
    else
      let direction := if deltaX > 0 then WaveDir.right else WaveDir.left
      if st1.lastDirection ≠ none ∧ st1.lastDirection ≠ some direction then
        let changes := st1.directionChanges + 1
        if 2 ≤ changes ∧ now - st1.startTime < 2000 then
          ({ st1 with
              positions := positions
              directionChanges := 0
              startTime := now + 1000
              lastDirection := some direction },
           some { name := "wave", confidence := 0.9 })
        else
          ({ st1 with
              positions := positions
              directionChanges := changes
              lastDirection := some direction }, none)
      else
        ({ st1 with positions := positions, lastDirection := some direction }, none)

/-- Per-hand swipe state (swipePositions, swipeStartTime, swipeLastPosition,
swipeVelocity, lastSwipeTime). -/
structure SwipeRec where
  positions : List WSample
  startTime : ℝ
  lastPosition : WSample
  velocity : ℝ × ℝ
  lastSwipeTime : ℝ

/-- detectSwipeGesture(wrist, handId, handedness) for one hand: the updated
swipe state and the swipe gesture notified on this frame, if any.  The
velocity division is modelled with JavaScript IEEE-754 semantics (jsDiv),
since the source does not guard against a zero elapsed time. -/
noncomputable def detectSwipeGesture (wrist : Vec3) (now : ℝ) (st0 : Option SwipeRec) :
    SwipeRec × Option Gesture :=
  let st := st0.getD ⟨[], now, (⟨wrist.x, wrist.y, now⟩ : WSample), (0, 0), 0⟩
  if now - st.lastSwipeTime < 1000 then (st, none)
  else
    let positions := (st.positions ++ [(⟨wrist.x, wrist.y, now⟩ : WSample)]).dropWhile
      (fun p => decide (now - p.time > 500))
    if positions.length < 5 then ({ st with positions := positions }, none)
    else
      let firstP := positions.getD 0 ⟨0, 0, 0⟩
      let lastP := positions.getD (positions.length - 1) ⟨0, 0, 0⟩
      let timeDiff := (lastP.time - firstP.time) / 1000
      let deltaX := lastP.x - firstP.x
      let deltaY := lastP.y - firstP.y
      let velocityX := jsDiv deltaX timeDiff
      let velocityY := jsDiv deltaY timeDiff
      if (|deltaX| > 0.15 ∨ |deltaY| > 0.15) ∧
          (jsGt (jsAbs velocityX) 0.5 = true ∨ jsGt (jsAbs velocityY) 0.5 = true) then
        ({ st with positions := [], startTime := now, lastSwipeTime := now },
         some { name := "swipe",
                direction := some (if |deltaX| > |deltaY|
                  then (if deltaX > 0 then "right" else "left")
                  else (if deltaY > 0 then "down" else "up")),
                speed := some (jsSqrt (jsAdd (jsMul velocityX velocityX)
                  (jsMul velocityY velocityY))),
                confidence := 0.9 })
      else ({ st with positions := positions }, none)

/-- All per-hand state handleResults keeps for one hand id: pinch, wave and
swipe state plus the dispatch/debounce fields lastGesture/lastGestureTime. -/
structure HandState where
  pinch : Option PinchRec
  wave : Option WaveRec
  swipe : Option SwipeRec
  lastGesture : Option String
  lastGestureTime : Option ℝ

/-- The state before the first frame for a hand id: none of the per-hand
dictionaries has an entry yet. -/
def initialHandState : HandState :=
  ⟨none, none, none, none, none⟩

/-- What one handleResults pass produces for one hand: the new per-hand
state, the wave and swipe notifications (which bypass the debounce), the
raw static candidate and the static notification that survived the
name-based dedup. -/
structure FrameOutput where
  state : HandState
  waveG : Option Gesture
  swipeG : Option Gesture
  staticCandidate : Option Gesture
  staticEmitted : Option Gesture

/-- The notifications delivered to gesture listeners for this hand on this
frame, in source order: wave (notified inside detectWaveGesture), swipe
(notified inside detectSwipeGesture), then the debounced static gesture. -/
def FrameOutput.notifications (o : FrameOutput) : List Gesture :=
  o.waveG.toList ++ o.swipeG.toList ++ o.staticEmitted.toList

open Classical in
/-- One handleResults pass for one hand (lines 242-264 of the source):
static classification first, then the wave and swipe detectors on the wrist
landmark, then the dedup gate `lastGesture !== name || now − lastGestureTime
> 500` for the static candidate.  `none` models the frame aborting on a
thrown TypeError before any state is written. -/
noncomputable def processHandFrame (landmarks : List Vec3) (now : ℝ) (st : HandState) :
    Option FrameOutput :=
  match detectStaticGesture landmarks st.pinch now, landmarks.get? 0 with
  | some sres, some wrist =>
    let wres := detectWaveGesture wrist now st.wave
    let swres := detectSwipeGesture wrist now st.swipe
    let staticEmitted : Option Gesture :=
      match sres.1 with
      | some g =>
        if st.lastGesture ≠ some g.name ∨ (∃ t, st.lastGestureTime = some t ∧ now - t > 500)
        then some g else none
      | none => none
    some { state :=
             { pinch := some sres.2, wave := some wres.1, swipe := some swres.1,
               lastGesture := (match staticEmitted with
                 | some g => some g.name
                 | none => st.lastGesture),
               lastGestureTime := (match staticEmitted with
                 | some _ => some now
                 | none => st.lastGestureTime) },
           waveG := wres.2, swipeG := swres.2,
           staticCandidate := sres.1, staticEmitted := staticEmitted }
  | _, _ => none

/-- A 21-landmark open-hand frame: wrist at (0.5, 0.5, 0), each non-thumb
finger laid out straight along the x axis, thumb tip far from the index
tip. -/
noncomputable def openFrame : List Vec3 :=
  [⟨0.5, 0.5, 0⟩,
   ⟨0.45, 0.5, 0⟩, ⟨0.45, 0.5, 0⟩, ⟨0.45, 0.5, 0⟩, ⟨0.1, 0.5, 0⟩,
   ⟨0.6, 0.5, 0⟩, ⟨0.7, 0.5, 0⟩, ⟨0.8, 0.5, 0⟩, ⟨0.9, 0.5, 0⟩,
   ⟨0.6, 0.5, 0⟩, ⟨0.7, 0.5, 0⟩, ⟨0.8, 0.5, 0⟩, ⟨0.9, 0.5, 0⟩,
   ⟨0.6, 0.5, 0⟩, ⟨0.7, 0.5, 0⟩, ⟨0.8, 0.5, 0⟩, ⟨0.9, 0.5, 0⟩,
   ⟨0.6, 0.5, 0⟩, ⟨0.7, 0.5, 0⟩, ⟨0.8, 0.5, 0⟩, ⟨0.9, 0.5, 0⟩]

/-- The open-hand frame with the thumb tip moved next to the index tip
(thumb-to-index distance 0.01): all four fingers still classify as
extended, but the pinch state machine engages. -/
noncomputable def pinchOpenFrame : List Vec3 :=
  [⟨0.5, 0.5, 0⟩,
   ⟨0.45, 0.5, 0⟩, ⟨0.45, 0.5, 0⟩, ⟨0.45, 0.5, 0⟩, ⟨0.89, 0.5, 0⟩,
   ⟨0.6, 0.5, 0⟩, ⟨0.7, 0.5, 0⟩, ⟨0.8, 0.5, 0⟩, ⟨0.9, 0.5, 0⟩,
   ⟨0.6, 0.5, 0⟩, ⟨0.7, 0.5, 0⟩, ⟨0.8, 0.5, 0⟩, ⟨0.9, 0.5, 0⟩,
   ⟨0.6, 0.5, 0⟩, ⟨0.7, 0.5, 0⟩, ⟨0.8, 0.5, 0⟩, ⟨0.9, 0.5, 0⟩,
   ⟨0.6, 0.5, 0⟩, ⟨0.7, 0.5, 0⟩, ⟨0.8, 0.5, 0⟩, ⟨0.9, 0.5, 0⟩]

/-- A malformed frame with only 20 landmark entries (the pinky tip, index
20, is missing). -/
noncomputable def shortFrame : List Vec3 :=
  openFrame.take 20

/-- A 21-landmark frame whose thumb tip sits at the origin and whose index
tip sits at distance d from it; drives the pinch state machine with a
prescribed thumb-to-index distance. -/
noncomputable def mkPinchFrame (d : ℝ) : List Vec3 :=
  [⟨0, 0, 0⟩,
   ⟨0, 0, 0⟩, ⟨0, 0, 0⟩, ⟨0, 0, 0⟩, ⟨0, 0, 0⟩,
   ⟨0.01, 0, 0⟩, ⟨0.02, 0, 0⟩, ⟨0.03, 0, 0⟩, ⟨d, 0, 0⟩,
   ⟨0.1, 0, 0⟩, ⟨0.2, 0, 0⟩, ⟨0.3, 0, 0⟩, ⟨0.4, 0, 0⟩,
   ⟨0.1, 0, 0⟩, ⟨0.2, 0, 0⟩, ⟨0.3, 0, 0⟩, ⟨0.4, 0, 0⟩,
   ⟨0.1, 0, 0⟩, ⟨0.2, 0, 0⟩, ⟨0.3, 0, 0⟩, ⟨0.4, 0, 0⟩]

/-- Feed a list of thumb-to-index distances to the pinch state machine,
one frame per distance (timestamps 0), starting from no pinch state. -/
noncomputable def runPinch (ds : List ℝ) : Option PinchRec :=
  ds.foldl (fun pst d =>
    match detectStaticGesture (mkPinchFrame d) pst 0 with
    | some r => some r.2
    | none => pst) none

/-- Feed a list of (timestamp, wrist-x) frames to the wave detector for one
hand, collecting the timestamps of the wave notifications. -/
noncomputable def runWave (frames : List (ℝ × ℝ)) : Option WaveRec × List ℝ :=
  frames.foldl (fun acc f =>
    let r := detectWaveGesture ⟨f.2, 0.5, 0⟩ f.1 acc.1
    (some r.1, acc.2 ++ (match r.2 with | some _ => [f.1] | none => []))) (none, [])

/-- Feed a list of (timestamp, wrist-x, wrist-y) frames to the swipe
detector for one hand, collecting the notified gestures with their times. -/
noncomputable def runSwipe (frames : List (ℝ × ℝ × ℝ)) : Option SwipeRec × List (ℝ × Gesture) :=
  frames.foldl (fun acc f =>
    let r := detectSwipeGesture ⟨f.2.1, f.2.2, 0⟩ f.1 acc.1
    (some r.1, acc.2 ++ (match r.2 with | some g => [(f.1, g)] | none => []))) (none, [])

/-- A wrist oscillating 0.4 → 0.6 → 0.4 → 0.6 and immediately repeating the
same oscillation, sampled every 100ms. -/
noncomputable def waveTimeline : List (ℝ × ℝ) :=
  [(0, 0.40), (100, 0.50), (200, 0.60), (300, 0.50), (400, 0.40), (500, 0.50),
   (600, 0.60), (700, 0.50), (800, 0.40), (900, 0.50), (1000, 0.60)]

/-- Five samples spanning 300ms with total displacement (0.21, 0.01),
followed by the identical motion repeated within 1000ms of the first. -/
noncomputable def swipeTimeline : List (ℝ × ℝ × ℝ) :=
  [(10000, 0.5, 0.5), (10075, 0.55, 0.5), (10150, 0.6, 0.5), (10225, 0.65, 0.5),
   (10300, 0.71, 0.51),
   (10400, 0.5, 0.5), (10475, 0.55, 0.5), (10550, 0.6, 0.5), (10625, 0.65, 0.5),
   (10700, 0.71, 0.51)]

/-- Five well-formed samples that all carry the same timestamp, with a
displacement above the swipe threshold: the elapsed time is zero. -/
noncomputable def zeroElapsedTimeline : List (ℝ × ℝ × ℝ) :=
  [(10000, 0.5, 0.5), (10000, 0.55, 0.5), (10000, 0.6, 0.5), (10000, 0.65, 0.5),
   (10000, 0.71, 0.51)]

/-- The open-hand candidate the source builds. -/
def openG : Gesture :=
  { name := "open", confidence := 0.9 }

/-- The wrist samples of a queue are in non-decreasing time order. -/
def timesSorted (l : List WSample) : Prop :=
  l.Pairwise (fun a b => a.time ≤ b.time)

/-- All retained wave samples lie within the 2000ms look-back window of the
latest processed frame time. -/
def waveInv (now : ℝ) (st : WaveRec) : Prop :=
  timesSorted st.positions ∧ ∀ p ∈ st.positions, p.time ≤ now ∧ now - p.time ≤ 2000

/-- All retained swipe samples lie within the 500ms look-back window of the
latest processed frame time; a non-empty buffer implies the hand is outside
its refractory period (which is what keeps the buffer trimmed even though
the refractory early-return skips the trim). -/
def swipeInv (now : ℝ) (st : SwipeRec) : Prop :=
  timesSorted st.positions ∧ (∀ p ∈ st.positions, p.time ≤ now ∧ now - p.time ≤ 500) ∧
    (st.positions ≠ [] → 1000 ≤ now - st.lastSwipeTime)

/-! Helper lemmas for evaluating the geometry on concrete frames whose
landmarks differ only along the x axis. -/

lemma distance3D_x (x₁ x₂ y z : ℝ) :
    distance3D ⟨x₁, y, z⟩ ⟨x₂, y, z⟩ = |x₁ - x₂| := by
  unfold distance3D
  simp [sub_self, Real.sqrt_sq_eq_abs]

lemma normalizeVector_x (a : ℝ) (ha : 0 < a) :
    normalizeVector ⟨a, 0, 0⟩ = ⟨1, 0, 0⟩ := by
  unfold normalizeVector
  simp only [mul_zero, add_zero, zero_mul]
  rw [Real.sqrt_mul_self ha.le, if_neg ha.ne']
  simp [div_self ha.ne']

lemma dist_origin (d : ℝ) (hd : 0 ≤ d) : distance3D ⟨0, 0, 0⟩ ⟨d, 0, 0⟩ = d := by
  rw [distance3D_x, abs_sub_comm, sub_zero, abs_of_nonneg hd]

lemma finger_open_1 : isFingerExtendedImproved openFrame 1 = some true := by
  unfold isFingerExtendedImproved openFrame
  norm_num [List.get?, vectorBetween, distance3D_x, normalizeVector_x, dotProduct,
    abs_of_pos]

lemma finger_open_2 : isFingerExtendedImproved openFrame 2 = some true := by
  unfold isFingerExtendedImproved openFrame
  norm_num [List.get?, vectorBetween, distance3D_x, normalizeVector_x, dotProduct,
    abs_of_pos]

lemma finger_open_3 : isFingerExtendedImproved openFrame 3 = some true := by
  unfold isFingerExtendedImproved openFrame
  norm_num [List.get?, vectorBetween, distance3D_x, normalizeVector_x, dotProduct,
    abs_of_pos]

lemma finger_open_4 : isFingerExtendedImproved openFrame 4 = some true := by
  unfold isFingerExtendedImproved openFrame
  norm_num [List.get?, vectorBetween, distance3D_x, normalizeVector_x, dotProduct,
    abs_of_pos]

lemma finger_pinchOpen_1 : isFingerExtendedImproved pinchOpenFrame 1 = some true := by
  unfold isFingerExtendedImproved pinchOpenFrame
  norm_num [List.get?, vectorBetween, distance3D_x, normalizeVector_x, dotProduct,
    abs_of_pos]

lemma finger_pinchOpen_2 : isFingerExtendedImproved pinchOpenFrame 2 = some true := by
  unfold isFingerExtendedImproved pinchOpenFrame
  norm_num [List.get?, vectorBetween, distance3D_x, normalizeVector_x, dotProduct,
    abs_of_pos]

lemma finger_pinchOpen_3 : isFingerExtendedImproved pinchOpenFrame 3 = some true := by
  unfold isFingerExtendedImproved pinchOpenFrame
  norm_num [List.get?, vectorBetween, distance3D_x, normalizeVector_x, dotProduct,
    abs_of_pos]

lemma finger_pinchOpen_4 : isFingerExtendedImproved pinchOpenFrame 4 = some true := by
  unfold isFingerExtendedImproved pinchOpenFrame
  norm_num [List.get?, vectorBetween, distance3D_x, normalizeVector_x, dotProduct,
    abs_of_pos]

/-- On the open-hand frame, detectStaticGesture reduces to the pure core
with all four finger flags true. -/
lemma static_openFrame_eq (pst : Option PinchRec) (now : ℝ) :
    detectStaticGesture openFrame pst now =
      some (staticCore true true true true ⟨0.5, 0.5, 0⟩ ⟨0.9, 0.5, 0⟩ ⟨0.1, 0.5, 0⟩ pst now) := by
  unfold detectStaticGesture
  rw [finger_open_1, finger_open_2, finger_open_3, finger_open_4]
  rfl

/-- On the pinching open-hand frame, detectStaticGesture reduces to the
pure core with all four finger flags true. -/
lemma static_pinchOpenFrame_eq (pst : Option PinchRec) (now : ℝ) :
    detectStaticGesture pinchOpenFrame pst now =
      some (staticCore true true true true ⟨0.5, 0.5, 0⟩ ⟨0.9, 0.5, 0⟩ ⟨0.89, 0.5, 0⟩ pst now) := by
  unfold detectStaticGesture
  rw [finger_pinchOpen_1, finger_pinchOpen_2, finger_pinchOpen_3, finger_pinchOpen_4]
  rfl

/-- The second component of staticCore (the updated pinch state) does not
depend on which gesture branch is taken. -/
lemma staticCore_snd (iE mE rE pE : Bool) (wrist indexTip thumbTip : Vec3)
    (pst : Option PinchRec) (now : ℝ) :
    (staticCore iE mE rE pE wrist indexTip thumbTip pst now).2 =
      ⟨distance3D thumbTip indexTip,
       (if (pst.getD ⟨distance3D thumbTip indexTip, false, 0⟩).isPinching = false ∧
            distance3D thumbTip indexTip < 0.05 then true
        else if (pst.getD ⟨distance3D thumbTip indexTip, false, 0⟩).isPinching = true ∧
            distance3D thumbTip indexTip > 0.05 + 0.02 then false
        else (pst.getD ⟨distance3D thumbTip indexTip, false, 0⟩).isPinching),
       (if (pst.getD ⟨distance3D thumbTip indexTip, false, 0⟩).isPinching = false ∧
            distance3D thumbTip indexTip < 0.05 then now
        else (pst.getD ⟨distance3D thumbTip indexTip, false, 0⟩).pinchStartTime)⟩ := by
  simp only [staticCore]
  split_ifs <;> rfl

/-- On the distance-driving frame, detectStaticGesture reduces to the pure
core applied at wrist (0,0,0), index tip (d,0,0), thumb tip (0,0,0). -/
lemma static_mkPinchFrame_eq (d : ℝ) (pst : Option PinchRec) (now : ℝ) :
    ∃ iE mE rE pE : Bool, detectStaticGesture (mkPinchFrame d) pst now =
      some (staticCore iE mE rE pE ⟨0, 0, 0⟩ ⟨d, 0, 0⟩ ⟨0, 0, 0⟩ pst now) :=
  ⟨((isFingerExtendedImproved (mkPinchFrame d) 1).getD false),
   ((isFingerExtendedImproved (mkPinchFrame d) 2).getD false),
   ((isFingerExtendedImproved (mkPinchFrame d) 3).getD false),
   ((isFingerExtendedImproved (mkPinchFrame d) 4).getD false), rfl⟩

lemma runPinch_snoc (ds : List ℝ) (d : ℝ) :
    runPinch (ds ++ [d]) =
      (match detectStaticGesture (mkPinchFrame d) (runPinch ds) 0 with
        | some r => some r.2
        | none => runPinch ds) := by
  unfold runPinch
  rw [List.foldl_append]
  rfl

/-- One frame of the distance-driven pinch run, evaluated. -/
lemma runPinch_step (pst : Option PinchRec) (d : ℝ) (hd : 0 ≤ d) :
    (match detectStaticGesture (mkPinchFrame d) pst 0 with
      | some r => some r.2
      | none => pst) =
    some ⟨d,
      (if (pst.getD ⟨d, false, 0⟩).isPinching = false ∧ d < 0.05 then true
       else if (pst.getD ⟨d, false, 0⟩).isPinching = true ∧ d > 0.05 + 0.02 then false
       else (pst.getD ⟨d, false, 0⟩).isPinching),
      (if (pst.getD ⟨d, false, 0⟩).isPinching = false ∧ d < 0.05 then 0
       else (pst.getD ⟨d, false, 0⟩).pinchStartTime)⟩ := by
  obtain ⟨iE, mE, rE, pE, heq⟩ := static_mkPinchFrame_eq d pst 0
  rw [heq]
  show some (staticCore iE mE rE pE ⟨0, 0, 0⟩ ⟨d, 0, 0⟩ ⟨0, 0, 0⟩ pst 0).2 = _
  rw [staticCore_snd, dist_origin d hd]

lemma pinchSeq1 : runPinch [0.1] = some ⟨0.1, false, 0⟩ := by
  unfold runPinch
  simp only [List.foldl_cons, List.foldl_nil]
  rw [runPinch_step none 0.1 (by norm_num)]
  norm_num [Option.getD]

lemma pinchSeq2 : runPinch [0.1, 0.04] = some ⟨0.04, true, 0⟩ := by
  have h : ([0.1, 0.04] : List ℝ) = [0.1] ++ [0.04] := rfl
  rw [h, runPinch_snoc, pinchSeq1, runPinch_step (some ⟨0.1, false, 0⟩) 0.04 (by norm_num)]
  norm_num [Option.getD]

lemma pinchSeq3 : runPinch [0.1, 0.04, 0.06] = some ⟨0.06, true, 0⟩ := by
  have h : ([0.1, 0.04, 0.06] : List ℝ) = [0.1, 0.04] ++ [0.06] := rfl
  rw [h, runPinch_snoc, pinchSeq2, runPinch_step (some ⟨0.04, true, 0⟩) 0.06 (by norm_num)]
  norm_num [Option.getD]

lemma pinchSeq4 : runPinch [0.1, 0.04, 0.06, 0.08] = some ⟨0.08, false, 0⟩ := by
  have h : ([0.1, 0.04, 0.06, 0.08] : List ℝ) = [0.1, 0.04, 0.06] ++ [0.08] := rfl
  rw [h, runPinch_snoc, pinchSeq3, runPinch_step (some ⟨0.06, true, 0⟩) 0.08 (by norm_num)]
  norm_num [Option.getD]

/-- With fewer than 21 landmarks the pinky-tip lookup (index 20 = 4*4+4)
fails, so the pinky finger-extension call raises (returns none). -/
lemma isFinger4_none_of_short (lm : List Vec3) (h : lm.length < 21) :
    isFingerExtendedImproved lm 4 = none := by
  have h20 : lm.get? (4 * 4 + 4) = none := by
    rw [List.get?_eq_none]
    omega
  unfold isFingerExtendedImproved
  rw [h20]
  rcases lm.get? 0 with _ | w <;> rcases lm.get? (4 * 4 + 1) with _ | a <;>
    rcases lm.get? (4 * 4 + 2) with _ | b <;> rcases lm.get? (4 * 4 + 3) with _ | c <;> rfl

/-- With fewer than 21 landmarks, detectStaticGesture raises. -/
lemma detectStatic_none_of_short (lm : List Vec3) (pst : Option PinchRec) (now : ℝ)
    (h : lm.length < 21) : detectStaticGesture lm pst now = none := by
  have h4 := isFinger4_none_of_short lm h
  unfold detectStaticGesture
  rw [h4]
  rcases isFingerExtendedImproved lm 1 with _ | f1 <;>
    rcases isFingerExtendedImproved lm 2 with _ | f2 <;>
    rcases isFingerExtendedImproved lm 3 with _ | f3 <;>
    rcases lm.get? 0 with _ | w <;> rcases lm.get? 8 with _ | i8 <;>
    rcases lm.get? 4 with _ | i4 <;> rfl

/-- C1 (counterexample): the claim asserts that a landmark set with 20
entries is rejected without throwing; on the code, processing such a frame
raises a TypeError (modelled as `none`) while reading the missing pinky
tip, so the "throws no exception" part of the claim is false at this
concrete input. -/
theorem short_frame_raises :
    processHandFrame shortFrame 10000 initialHandState = none := rfl

/-- C1 (amended): a frame whose landmark set has fewer than 21 points makes
the gesture pass throw (the static classifier reads a missing landmark)
before any gesture candidate is emitted and before any per-hand state is
written; the frame is rejected by an exception rather than by a silent
skip, and the code contains no validation of landmark count or coordinate
finiteness at all. -/
theorem short_frame_rejected_by_exception (lm : List Vec3) (now : ℝ) (st : HandState)
    (h : lm.length < 21) : processHandFrame lm now st = none := by
  have hs := detectStatic_none_of_short lm st.pinch now h
  unfold processHandFrame
  rw [hs]

/-- C1 (witness): the amended theorem applied to the concrete 20-entry
frame. -/
theorem short_frame_rejected_by_exception_witness :
    processHandFrame shortFrame 12345 initialHandState = none :=
  short_frame_rejected_by_exception shortFrame 12345 initialHandState (by decide)

/-- C2: the pinch state machine enters "pinching" only from not-pinching
when the thumb-to-index distance is < 0.05, exits only from pinching when
that distance is > 0.05 + 0.02 = 0.07; and on the distance sequence
0.1, 0.04, 0.06, 0.08 pinch starts at 0.04, is still active at 0.06 and
ends only at 0.08. -/
theorem pinch_hysteresis_spec (d : ℝ) (hd : 0 ≤ d) (pst : Option PinchRec) (now : ℝ) :
    (∃ r, detectStaticGesture (mkPinchFrame d) pst now = some r ∧
      ((pst.map PinchRec.isPinching).getD false = false →
        (r.2.isPinching = true ↔ d < 0.05)) ∧
      ((pst.map PinchRec.isPinching).getD false = true →
        (r.2.isPinching = false ↔ d > 0.05 + 0.02))) ∧
    ((runPinch [0.1]).map PinchRec.isPinching = some false ∧
     (runPinch [0.1, 0.04]).map PinchRec.isPinching = some true ∧
     (runPinch [0.1, 0.04, 0.06]).map PinchRec.isPinching = some true ∧
     (runPinch [0.1, 0.04, 0.06, 0.08]).map PinchRec.isPinching = some false) := by
  constructor
  · obtain ⟨iE, mE, rE, pE, heq⟩ := static_mkPinchFrame_eq d pst now
    refine ⟨_, heq, ?_, ?_⟩
    · intro hwas
      have hw : (pst.getD ⟨d, false, 0⟩).isPinching = false := by
        rcases pst with _ | pr
        · rfl
        · simpa using hwas
      rw [staticCore_snd, dist_origin d hd, hw]
      by_cases hlt : d < 0.05
      · simp [hlt]
      · simp [hlt]
    · intro hwas
      have hw : (pst.getD ⟨d, false, 0⟩).isPinching = true := by
        rcases pst with _ | pr
        · simp at hwas
        · simpa using hwas
      rw [staticCore_snd, dist_origin d hd, hw]
      by_cases hgt : d > 0.05 + 0.02
      · simp [hgt]
      · simp [hgt]
  · refine ⟨?_, ?_, ?_, ?_⟩ <;>
      simp only [pinchSeq1, pinchSeq2, pinchSeq3, pinchSeq4, Option.map_some']

/-- C2 (witness): the hysteresis theorem applied at distance 0.04 from the
idle state; in particular the 0.1 → 0.04 prefix of the claim's sequence has
entered the pinching state. -/
theorem pinch_hysteresis_spec_witness :
    (runPinch [0.1, 0.04]).map PinchRec.isPinching = some true :=
  (pinch_hysteresis_spec 0.04 (by norm_num) none 0).2.2.1

/-- C5: the pointing-direction resolution: forward/backward when the depth
component dominates (|dz| > 0.05 and more than half of each of |dx|, |dy|),
otherwise a diagonal when both |dx| > 0.03 and |dy| > 0.03 (quadrant by the
signs of dx and dy), otherwise the larger of |dx|, |dy| picks the cardinal
direction by sign; in particular (0,0,-0.2) is forward, (0.2,0.2,0) is
bottom-right and (0.2,0,0) is right. -/
theorem point_direction_resolution (dx dy dz : ℝ) :
    ((|dz| > 0.05 ∧ |dz| > |dx| * 0.5 ∧ |dz| > |dy| * 0.5) →
      pointingDirection dx dy dz = some (if dz < 0 then "forward" else "backward")) ∧
    (¬(|dz| > 0.05 ∧ |dz| > |dx| * 0.5 ∧ |dz| > |dy| * 0.5) → |dx| > 0.03 → |dy| > 0.03 →
      ((dx > 0 → dy < 0 → pointingDirection dx dy dz = some "top-right") ∧
       (dx < 0 → dy < 0 → pointingDirection dx dy dz = some "top-left") ∧
       (dx > 0 → dy > 0 → pointingDirection dx dy dz = some "bottom-right") ∧
       (dx < 0 → dy > 0 → pointingDirection dx dy dz = some "bottom-left"))) ∧
    (¬(|dz| > 0.05 ∧ |dz| > |dx| * 0.5 ∧ |dz| > |dy| * 0.5) → ¬(|dx| > 0.03 ∧ |dy| > 0.03) →
      ((|dx| > |dy| → pointingDirection dx dy dz = some (if dx > 0 then "right" else "left")) ∧
       (¬(|dx| > |dy|) → pointingDirection dx dy dz = some (if dy > 0 then "down" else "up")))) ∧
    (pointingDirection 0 0 (-0.2) = some "forward" ∧
     pointingDirection 0.2 0.2 0 = some "bottom-right" ∧
     pointingDirection 0.2 0 0 = some "right") := by
  refine ⟨?_, ?_, ?_, ?_, ?_, ?_⟩
  · intro h
    simp only [pointingDirection]
    rw [if_pos h]
  · intro h h1 h2
    refine ⟨?_, ?_, ?_, ?_⟩ <;> intro hx hy <;> simp only [pointingDirection] <;>
      rw [if_neg h, if_pos ⟨h1, h2⟩]
    · rw [if_pos ⟨hx, hy⟩]
    · rw [if_neg (fun hc => absurd hc.1 (lt_asymm hx)), if_pos ⟨hx, hy⟩]
    · rw [if_neg (fun hc => absurd hc.2 (lt_asymm hy)),
        if_neg (fun hc => absurd hc.1 (lt_asymm hx)), if_pos ⟨hx, hy⟩]
    · rw [if_neg (fun hc => absurd hc.2 (lt_asymm hy)),
        if_neg (fun hc => absurd hc.2 (lt_asymm hy)),
        if_neg (fun hc => absurd hc.1 (lt_asymm hx)), if_pos ⟨hx, hy⟩]
  · intro h hnd
    constructor <;> intro hxy <;> simp only [pointingDirection] <;> rw [if_neg h, if_neg hnd]
    · rw [if_pos hxy]
    · rw [if_neg hxy]
  · norm_num [pointingDirection, abs_of_pos, abs_of_neg, abs_zero, abs_neg]
  · norm_num [pointingDirection, abs_of_pos, abs_of_neg, abs_zero, abs_neg]
  · norm_num [pointingDirection, abs_of_pos, abs_of_neg, abs_zero, abs_neg]

/-- Unfolding of one handleResults pass once the static classifier and the
wrist lookup are known to succeed. -/
lemma processHandFrame_eq (lm : List Vec3) (now : ℝ) (hs : HandState)
    (sres : Option Gesture × PinchRec) (w : Vec3)
    (h1 : detectStaticGesture lm hs.pinch now = some sres) (h2 : lm.get? 0 = some w) :
    processHandFrame lm now hs = some
      { state :=
          { pinch := some sres.2,
            wave := some (detectWaveGesture w now hs.wave).1,
            swipe := some (detectSwipeGesture w now hs.swipe).1,
            lastGesture :=
              (match (match sres.1 with
                | some g =>
                  if hs.lastGesture ≠ some g.name ∨
                      (∃ t, hs.lastGestureTime = some t ∧ now - t > 500)
                  then some g else none
                | none => none) with
                | some g => some g.name
                | none => hs.lastGesture),
            lastGestureTime :=
              (match (match sres.1 with
                | some g =>
                  if hs.lastGesture ≠ some g.name ∨
                      (∃ t, hs.lastGestureTime = some t ∧ now - t > 500)
                  then some g else none
                | none => none) with
                | some _ => some now
                | none => hs.lastGestureTime) },
        waveG := (detectWaveGesture w now hs.wave).2,
        swipeG := (detectSwipeGesture w now hs.swipe).2,
        staticCandidate := sres.1,
        staticEmitted :=
          (match sres.1 with
            | some g =>
              if hs.lastGesture ≠ some g.name ∨
                  (∃ t, hs.lastGestureTime = some t ∧ now - t > 500)
              then some g else none
            | none => none) } := by
  unfold processHandFrame
  rw [h1, h2]

/-- The wave detector emits nothing while its queue holds at most one
sample (fewer than 3 positions after the push). -/
lemma detectWave_none_of_short (wrist : Vec3) (now : ℝ) (st0 : Option WaveRec)
    (h : (st0.getD ⟨[], 0, now, none⟩).positions.length ≤ 1) :
    (detectWaveGesture wrist now st0).2 = none := by
  simp only [detectWaveGesture]
  have hlen : (((st0.getD ⟨[], 0, now, none⟩).positions ++
      [(⟨wrist.x, wrist.y, now⟩ : WSample)]).dropWhile
        (fun p => decide (now - p.time > 2000))).length < 3 := by
    have hd := (List.dropWhile_sublist
      (l := (st0.getD ⟨[], 0, now, none⟩).positions ++ [(⟨wrist.x, wrist.y, now⟩ : WSample)])
      (fun p => decide (now - p.time > 2000))).length_le
    rw [List.length_append, List.length_singleton] at hd
    omega
  rw [if_pos hlen]

/-- The swipe detector emits nothing while its queue holds at most three
samples (fewer than 5 positions after the push), or during the refractory
period. -/
lemma detectSwipe_none_of_short (wrist : Vec3) (now : ℝ) (st0 : Option SwipeRec)
    (h : (st0.getD ⟨[], now, ⟨wrist.x, wrist.y, now⟩, (0, 0), 0⟩).positions.length ≤ 3) :
    (detectSwipeGesture wrist now st0).2 = none := by
  simp only [detectSwipeGesture]
  by_cases hr : now - (st0.getD ⟨[], now, ⟨wrist.x, wrist.y, now⟩, (0, 0), 0⟩).lastSwipeTime < 1000
  · rw [if_pos hr]
  · rw [if_neg hr]
    have hlen : (((st0.getD ⟨[], now, ⟨wrist.x, wrist.y, now⟩, (0, 0), 0⟩).positions ++
        [(⟨wrist.x, wrist.y, now⟩ : WSample)]).dropWhile
          (fun p => decide (now - p.time > 500))).length < 5 := by
      have hd := (List.dropWhile_sublist
        (l := (st0.getD ⟨[], now, ⟨wrist.x, wrist.y, now⟩, (0, 0), 0⟩).positions ++
          [(⟨wrist.x, wrist.y, now⟩ : WSample)])
        (fun p => decide (now - p.time > 500))).length_le
      rw [List.length_append, List.length_singleton] at hd
      omega
    rw [if_pos hlen]

/-- The very first frame for a hand initialises the wave state with the
single pushed sample and emits nothing. -/
lemma detectWave_first (wrist : Vec3) (t : ℝ) :
    detectWaveGesture wrist t none = (⟨[⟨wrist.x, wrist.y, t⟩], 0, t, none⟩, none) := by
  simp only [detectWaveGesture, Option.getD_none]
  norm_num [List.dropWhile, sub_self]

/-- The very first frame for a hand (at a clock time past the initial
refractory window) initialises the swipe state with the single pushed
sample and emits nothing. -/
lemma detectSwipe_first (wrist : Vec3) (t : ℝ) (ht : 1000 ≤ t) :
    detectSwipeGesture wrist t none =
      (⟨[⟨wrist.x, wrist.y, t⟩], t, ⟨wrist.x, wrist.y, t⟩, (0, 0), 0⟩, none) := by
  simp only [detectSwipeGesture, Option.getD_none]
  rw [if_neg (not_lt.mpr (by linarith : (1000 : ℝ) ≤ t - 0))]
  norm_num [List.dropWhile, sub_self]

/-- Entering the pinch state at thumb-to-index distance 0.04 from the idle
state: the candidate has strength 0.2 and duration 0. -/
lemma staticCore_pinch004_enter (iE mE rE pE : Bool) (now : ℝ) :
    staticCore iE mE rE pE ⟨0, 0, 0⟩ ⟨0.04, 0, 0⟩ ⟨0, 0, 0⟩ none now =
      (some { name := "pinch", strength := some 0.2, duration := some 0, confidence := 0.9 },
       ⟨0.04, true, now⟩) := by
  simp only [staticCore, Option.getD_none]
  norm_num [dist_origin, max_def]

/-- Staying in the pinch state at thumb-to-index distance 0.04: the
candidate's duration grows with the clock. -/
lemma staticCore_pinch004_stay (iE mE rE pE : Bool) (start now : ℝ) :
    staticCore iE mE rE pE ⟨0, 0, 0⟩ ⟨0.04, 0, 0⟩ ⟨0, 0, 0⟩ (some ⟨0.04, true, start⟩) now =
      (some { name := "pinch", strength := some 0.2, duration := some (now - start),
              confidence := 0.9 },
       ⟨0.04, true, start⟩) := by
  simp only [staticCore, Option.getD_some]
  norm_num [dist_origin, max_def]

/-- Whenever the updated pinch state is pinching, the static classifier's
candidate is the pinch gesture built from that state. -/
lemma staticCore_pinch_candidate (iE mE rE pE : Bool) (w iT tT : Vec3)
    (pst : Option PinchRec) (now : ℝ)
    (hp : (staticCore iE mE rE pE w iT tT pst now).2.isPinching = true) :
    (staticCore iE mE rE pE w iT tT pst now).1 =
      some { name := "pinch"
             strength := some (max 0
               (1 - (staticCore iE mE rE pE w iT tT pst now).2.lastPinchDistance / 0.05))
             duration := some (now - (staticCore iE mE rE pE w iT tT pst now).2.pinchStartTime)
             confidence := 0.9 } := by
  simp only [staticCore_snd] at hp ⊢
  simp only [staticCore]
  rw [hp]
  simp

/-- C3 (amended): while a hand is in the pinching state the classifier
produces the pinch candidate (strength max(0, 1 − distance/0.05), duration
now − pinchStartTime, confidence 0.9) on every processed frame, but that
candidate passes through the same name-based dedup gate as every other
static gesture: when the last surfaced name for the hand is already the
candidate's name and not more than 500ms have elapsed, nothing is surfaced
to listeners.  Pinch has no dedup exemption in the code. -/
theorem pinch_candidate_every_frame_but_deduped (lm : List Vec3) (now : ℝ)
    (hs : HandState) (o : FrameOutput) (hrun : processHandFrame lm now hs = some o) :
    (∀ pr, o.state.pinch = some pr → pr.isPinching = true →
      o.staticCandidate = some { name := "pinch"
                                 strength := some (max 0 (1 - pr.lastPinchDistance / 0.05))
                                 duration := some (now - pr.pinchStartTime)
                                 confidence := 0.9 }) ∧
    (∀ g, o.staticCandidate = some g → hs.lastGesture = some g.name →
      (¬ ∃ t, hs.lastGestureTime = some t ∧ now - t > 500) →
      o.staticEmitted = none) := by
  unfold processHandFrame at hrun
  rcases hd : detectStaticGesture lm hs.pinch now with _ | sres <;> rw [hd] at hrun
  · exact absurd hrun (by simp)
  rcases hw : lm.get? 0 with _ | w <;> rw [hw] at hrun
  · exact absurd hrun (by simp)
  simp only [Option.some.injEq] at hrun
  subst hrun
  constructor
  · intro pr hpr hpin
    simp only [Option.some.injEq] at hpr
    unfold detectStaticGesture at hd
    rcases h1 : isFingerExtendedImproved lm 1 with _ | f1 <;> rw [h1] at hd
    · exact absurd hd (by simp)
    rcases h2 : isFingerExtendedImproved lm 2 with _ | f2 <;> rw [h2] at hd
    · exact absurd hd (by simp)
    rcases h3 : isFingerExtendedImproved lm 3 with _ | f3 <;> rw [h3] at hd
    · exact absurd hd (by simp)
    rcases h4 : isFingerExtendedImproved lm 4 with _ | f4 <;> rw [h4] at hd
    · exact absurd hd (by simp)
    rcases hw0 : lm.get? 0 with _ | w0 <;> rw [hw0] at hd
    · exact absurd hd (by simp)
    rcases hi8 : lm.get? 8 with _ | i8 <;> rw [hi8] at hd
    · exact absurd hd (by simp)
    rcases ht4 : lm.get? 4 with _ | t4 <;> rw [ht4] at hd
    · exact absurd hd (by simp)
    simp only [Option.some.injEq] at hd
    have hc := staticCore_pinch_candidate f1 f2 f3 f4 w0 i8 t4 hs.pinch now
      (by rw [hd, hpr]; exact hpin)
    rw [hd, hpr] at hc
    simpa using hc
  · intro g hg hsame hno
    have hg' : sres.1 = some g := hg
    show (match sres.1 with
      | some g' =>
        if hs.lastGesture ≠ some g'.name ∨ (∃ t, hs.lastGestureTime = some t ∧ now - t > 500)
        then some g' else none
      | none => none) = none
    rw [hg']
    show (if hs.lastGesture ≠ some g.name ∨ (∃ t, hs.lastGestureTime = some t ∧ now - t > 500)
      then some g else none) = none
    rw [if_neg (fun hc => hc.elim (fun hA => hA hsame) hno)]

/-- First frame of the two-frame pinch run: pinch starts, the candidate is
surfaced, and the dispatch state records name "pinch" at time 10000. -/
lemma pinchFrameRun1 : processHandFrame (mkPinchFrame 0.04) 10000 initialHandState = some
    ⟨⟨some ⟨0.04, true, 10000⟩,
      some ⟨[⟨0, 0, 10000⟩], 0, 10000, none⟩,
      some ⟨[⟨0, 0, 10000⟩], 10000, ⟨0, 0, 10000⟩, (0, 0), 0⟩,
      some "pinch", some 10000⟩,
     none, none,
     some ⟨"pinch", none, some 0.2, some 0, none, none, 0.9⟩,
     some ⟨"pinch", none, some 0.2, some 0, none, none, 0.9⟩⟩ := by
  obtain ⟨iE, mE, rE, pE, hst1⟩ := static_mkPinchFrame_eq 0.04 none 10000
  rw [staticCore_pinch004_enter] at hst1
  rw [processHandFrame_eq (mkPinchFrame 0.04) 10000 initialHandState _ ⟨0, 0, 0⟩ hst1 rfl]
  simp [initialHandState, detectWave_first, detectSwipe_first ⟨0, 0, 0⟩ 10000 (by norm_num)]

/-- Second frame of the two-frame pinch run, 100ms later: the hand is
still pinching and the classifier still produces the candidate, but the
dedup gate suppresses the notification. -/
lemma pinchFrameRun2 : processHandFrame (mkPinchFrame 0.04) 10100
    (⟨some ⟨0.04, true, 10000⟩,
      some ⟨[⟨0, 0, 10000⟩], 0, 10000, none⟩,
      some ⟨[⟨0, 0, 10000⟩], 10000, ⟨0, 0, 10000⟩, (0, 0), 0⟩,
      some "pinch", some 10000⟩ : HandState) = some
    ⟨⟨some ⟨0.04, true, 10000⟩,
      some ⟨[⟨0, 0, 10000⟩, ⟨0, 0, 10100⟩], 0, 10000, none⟩,
      some ⟨[⟨0, 0, 10000⟩, ⟨0, 0, 10100⟩], 10000, ⟨0, 0, 10000⟩, (0, 0), 0⟩,
      some "pinch", some 10000⟩,
     none, none,
     some ⟨"pinch", none, some 0.2, some 100, none, none, 0.9⟩,
     none⟩ := by
  obtain ⟨iF, mF, rF, pF, hst2⟩ := static_mkPinchFrame_eq 0.04 (some ⟨0.04, true, 10000⟩) 10100
  rw [staticCore_pinch004_stay] at hst2
  rw [show (10100 : ℝ) - 10000 = 100 by norm_num] at hst2
  rw [processHandFrame_eq (mkPinchFrame 0.04) 10100 _ _ ⟨0, 0, 0⟩ hst2 rfl]
  norm_num [detectWaveGesture, detectSwipeGesture, List.dropWhile]

/-- C3 (counterexample): two consecutive frames of one hand pinching at
distance 0.04, 100ms apart.  On the second frame the hand is still
pinching and the classifier still produces the pinch candidate, but the
name-based dedup suppresses it: no notification at all reaches listeners,
refuting "surfaced on every processed frame" and "exempt from the
name-based deduplication". -/
theorem pinch_repeat_suppressed_within_500ms :
    ∃ o1 o2,
      processHandFrame (mkPinchFrame 0.04) 10000 initialHandState = some o1 ∧
      processHandFrame (mkPinchFrame 0.04) 10100 o1.state = some o2 ∧
      o1.staticEmitted = o1.staticCandidate ∧
      o1.staticCandidate ≠ none ∧
      o2.state.pinch = some ⟨0.04, true, 10000⟩ ∧
      o2.staticCandidate = some ⟨"pinch", none, some 0.2, some 100, none, none, 0.9⟩ ∧
      o2.notifications = [] :=
  ⟨_, _, pinchFrameRun1, pinchFrameRun2, rfl, by simp, rfl, rfl, rfl⟩

/-- C3 (witness): the amended theorem applied to the second frame of the
concrete pinch run: the candidate is produced while pinching, and the
dedup gate suppresses it (same name, only 100ms elapsed). -/
theorem pinch_candidate_every_frame_but_deduped_witness :
    ∃ o, processHandFrame (mkPinchFrame 0.04) 10100
      (⟨some ⟨0.04, true, 10000⟩,
        some ⟨[⟨0, 0, 10000⟩], 0, 10000, none⟩,
        some ⟨[⟨0, 0, 10000⟩], 10000, ⟨0, 0, 10000⟩, (0, 0), 0⟩,
        some "pinch", some 10000⟩ : HandState) = some o ∧
      o.staticCandidate = some { name := "pinch"
                                 strength := some (max 0 (1 - (0.04 : ℝ) / 0.05))
                                 duration := some ((10100 : ℝ) - 10000)
                                 confidence := 0.9 } ∧
      o.staticEmitted = none := by
  have h := pinch_candidate_every_frame_but_deduped (mkPinchFrame 0.04) 10100 _ _ pinchFrameRun2
  refine ⟨_, pinchFrameRun2, h.1 ⟨0.04, true, 10000⟩ rfl rfl, h.2 _ rfl rfl ?_⟩
  rintro ⟨t, ht, hgt⟩
  rw [Option.some.injEq] at ht
  rw [← ht] at hgt
  norm_num at hgt

/-- The open-hand core evaluation from the idle pinch state. -/
lemma staticCore_open_none (now : ℝ) :
    staticCore true true true true ⟨0.5, 0.5, 0⟩ ⟨0.9, 0.5, 0⟩ ⟨0.1, 0.5, 0⟩ none now =
      (some openG, ⟨0.8, false, 0⟩) := by
  simp only [staticCore, Option.getD_none]
  norm_num [distance3D_x, abs_of_neg, openG]

/-- The open-hand core evaluation from the not-pinching state it produced. -/
lemma staticCore_open_again (now : ℝ) :
    staticCore true true true true ⟨0.5, 0.5, 0⟩ ⟨0.9, 0.5, 0⟩ ⟨0.1, 0.5, 0⟩
      (some ⟨0.8, false, 0⟩) now = (some openG, ⟨0.8, false, 0⟩) := by
  simp only [staticCore, Option.getD_some]
  norm_num [distance3D_x, abs_of_neg, openG]

/-- C7 (amended): feeding the same open-hand frame twice yields two
notifications exactly when strictly more than 500ms separate the frames;
at a gap of 500ms or less with unchanged gesture name, the second frame
produces the candidate but surfaces nothing. -/
theorem static_dedup_strict_500ms (t1 t2 : ℝ) (h1000 : 1000 ≤ t1) :
    ∃ o1, processHandFrame openFrame t1 initialHandState = some o1 ∧
      o1.notifications = [openG] ∧
      ∃ o2, processHandFrame openFrame t2 o1.state = some o2 ∧
        o2.staticCandidate = some openG ∧
        (t2 - t1 > 500 → o2.notifications = [openG]) ∧
        (¬(t2 - t1 > 500) → o2.notifications = []) := by
  have hs1 : detectStaticGesture openFrame none t1 = some (some openG, ⟨0.8, false, 0⟩) := by
    rw [static_openFrame_eq, staticCore_open_none]
  have hr1 : processHandFrame openFrame t1 initialHandState = some
      ⟨⟨some ⟨0.8, false, 0⟩,
        some ⟨[⟨0.5, 0.5, t1⟩], 0, t1, none⟩,
        some ⟨[⟨0.5, 0.5, t1⟩], t1, ⟨0.5, 0.5, t1⟩, (0, 0), 0⟩,
        some "open", some t1⟩,
       none, none, some openG, some openG⟩ := by
    rw [processHandFrame_eq openFrame t1 initialHandState _ ⟨0.5, 0.5, 0⟩ hs1 rfl]
    simp [initialHandState, detectWave_first, detectSwipe_first ⟨0.5, 0.5, 0⟩ t1 h1000, openG]
  have hs2 : detectStaticGesture openFrame (some ⟨0.8, false, 0⟩) t2 =
      some (some openG, ⟨0.8, false, 0⟩) := by
    rw [static_openFrame_eq, staticCore_open_again]
  have hr2 := processHandFrame_eq openFrame t2
    ⟨some ⟨0.8, false, 0⟩,
     some ⟨[⟨0.5, 0.5, t1⟩], 0, t1, none⟩,
     some ⟨[⟨0.5, 0.5, t1⟩], t1, ⟨0.5, 0.5, t1⟩, (0, 0), 0⟩,
     some "open", some t1⟩ _ ⟨0.5, 0.5, 0⟩ hs2 rfl
  have hwnone : (detectWaveGesture ⟨0.5, 0.5, 0⟩ t2
      (some ⟨[⟨0.5, 0.5, t1⟩], 0, t1, none⟩)).2 = none :=
    detectWave_none_of_short _ _ _ (by simp)
  have hsnone : (detectSwipeGesture ⟨0.5, 0.5, 0⟩ t2
      (some ⟨[⟨0.5, 0.5, t1⟩], t1, ⟨0.5, 0.5, t1⟩, (0, 0), 0⟩)).2 = none :=
    detectSwipe_none_of_short _ _ _ (by simp)
  refine ⟨_, hr1, rfl, _, hr2, rfl, ?_, ?_⟩
  · intro hgt
    simp only [FrameOutput.notifications]
    rw [hwnone, hsnone]
    simp [openG, hgt]
  · intro hng
    simp only [FrameOutput.notifications]
    rw [hwnone, hsnone]
    simp [openG, hng]

/-- C7 (counterexample): the same open-hand frame fed at t = 10000 and
again at t = 10500 — a gap of exactly 500ms, which satisfies the claim's
"at least 500ms" — yields no second notification: the dedup gate requires
strictly more than 500ms. -/
theorem repeat_at_exactly_500ms_suppressed :
    ∃ o1 o2, processHandFrame openFrame 10000 initialHandState = some o1 ∧
      o1.notifications = [openG] ∧
      processHandFrame openFrame 10500 o1.state = some o2 ∧
      o2.staticCandidate = some openG ∧
      o2.notifications = [] := by
  have hs1 : detectStaticGesture openFrame none 10000 = some (some openG, ⟨0.8, false, 0⟩) := by
    rw [static_openFrame_eq, staticCore_open_none]
  have hr1 : processHandFrame openFrame 10000 initialHandState = some
      ⟨⟨some ⟨0.8, false, 0⟩,
        some ⟨[⟨0.5, 0.5, 10000⟩], 0, 10000, none⟩,
        some ⟨[⟨0.5, 0.5, 10000⟩], 10000, ⟨0.5, 0.5, 10000⟩, (0, 0), 0⟩,
        some "open", some 10000⟩,
       none, none, some openG, some openG⟩ := by
    rw [processHandFrame_eq openFrame 10000 initialHandState _ ⟨0.5, 0.5, 0⟩ hs1 rfl]
    simp [initialHandState, detectWave_first,
      detectSwipe_first ⟨0.5, 0.5, 0⟩ 10000 (by norm_num), openG]
  have hs2 : detectStaticGesture openFrame (some ⟨0.8, false, 0⟩) 10500 =
      some (some openG, ⟨0.8, false, 0⟩) := by
    rw [static_openFrame_eq, staticCore_open_again]
  have hr2 := processHandFrame_eq openFrame 10500
    ⟨some ⟨0.8, false, 0⟩,
     some ⟨[⟨0.5, 0.5, 10000⟩], 0, 10000, none⟩,
     some ⟨[⟨0.5, 0.5, 10000⟩], 10000, ⟨0.5, 0.5, 10000⟩, (0, 0), 0⟩,
     some "open", some 10000⟩ _ ⟨0.5, 0.5, 0⟩ hs2 rfl
  have hwnone : (detectWaveGesture ⟨0.5, 0.5, 0⟩ 10500
      (some ⟨[⟨0.5, 0.5, 10000⟩], 0, 10000, none⟩)).2 = none :=
    detectWave_none_of_short _ _ _ (by simp)
  have hsnone : (detectSwipeGesture ⟨0.5, 0.5, 0⟩ 10500
      (some ⟨[⟨0.5, 0.5, 10000⟩], 10000, ⟨0.5, 0.5, 10000⟩, (0, 0), 0⟩)).2 = none :=
    detectSwipe_none_of_short _ _ _ (by simp)
  refine ⟨_, _, hr1, rfl, hr2, rfl, ?_⟩
  simp only [FrameOutput.notifications]
  rw [hwnone, hsnone]
  norm_num [openG]

/-- C7 (witness): the dedup theorem applied at t1 = 10000, t2 = 10600: the
gap is strictly more than 500ms and both frames notify the open gesture. -/
theorem static_dedup_strict_500ms_witness :
    ∃ o1, processHandFrame openFrame 10000 initialHandState = some o1 ∧
      o1.notifications = [openG] ∧
      ∃ o2, processHandFrame openFrame 10600 o1.state = some o2 ∧
        o2.notifications = [openG] := by
  obtain ⟨o1, h1, hn1, o2, h2, hcand, hgt, hng⟩ :=
    static_dedup_strict_500ms 10000 10600 (by norm_num)
  exact ⟨o1, h1, hn1, o2, h2, hgt (by norm_num)⟩

lemma runWave_snoc (fs : List (ℝ × ℝ)) (f : ℝ × ℝ) :
    runWave (fs ++ [f]) =
      (some (detectWaveGesture ⟨f.2, 0.5, 0⟩ f.1 (runWave fs).1).1,
       (runWave fs).2 ++ (match (detectWaveGesture ⟨f.2, 0.5, 0⟩ f.1 (runWave fs).1).2 with
         | some _ => [f.1]
         | none => [])) := by
  unfold runWave
  simp only [List.foldl_append, List.foldl_cons, List.foldl_nil]

lemma waveStep0 : runWave [((0 : ℝ), (0.40 : ℝ))] =
    (some ⟨[⟨0.40, 0.5, 0⟩], 0, 0, none⟩, []) := by
  unfold runWave
  simp only [List.foldl_cons, List.foldl_nil]
  rw [detectWave_first]
  simp

lemma waveStep1 : runWave [((0 : ℝ), (0.40 : ℝ)), ((100 : ℝ), (0.50 : ℝ))] =
    (some ⟨[⟨0.40, 0.5, 0⟩, ⟨0.50, 0.5, 100⟩], 0, 0, none⟩, []) := by
  have h : ([((0 : ℝ), (0.40 : ℝ)), ((100 : ℝ), (0.50 : ℝ))] : List (ℝ × ℝ)) = [((0 : ℝ), (0.40 : ℝ))] ++ [(100, 0.50)] := rfl
  rw [h, runWave_snoc, waveStep0]
  norm_num [detectWaveGesture, List.dropWhile, List.getD, List.get?, Option.getD,
    abs_of_pos, abs_of_neg, abs_zero]

lemma waveStep2 : runWave [((0 : ℝ), (0.40 : ℝ)), ((100 : ℝ), (0.50 : ℝ)), ((200 : ℝ), (0.60 : ℝ))] =
    (some ⟨[⟨0.40, 0.5, 0⟩, ⟨0.50, 0.5, 100⟩, ⟨0.60, 0.5, 200⟩], 0, 0, some WaveDir.right⟩, []) := by
  have h : ([((0 : ℝ), (0.40 : ℝ)), ((100 : ℝ), (0.50 : ℝ)), ((200 : ℝ), (0.60 : ℝ))] : List (ℝ × ℝ)) = [((0 : ℝ), (0.40 : ℝ)), ((100 : ℝ), (0.50 : ℝ))] ++ [(200, 0.60)] := rfl
  rw [h, runWave_snoc, waveStep1]
  norm_num [detectWaveGesture, List.dropWhile, List.getD, List.get?, Option.getD,
    abs_of_pos, abs_of_neg, abs_zero]

lemma waveStep3 : runWave [((0 : ℝ), (0.40 : ℝ)), ((100 : ℝ), (0.50 : ℝ)), ((200 : ℝ), (0.60 : ℝ)), ((300 : ℝ), (0.50 : ℝ))] =
    (some ⟨[⟨0.40, 0.5, 0⟩, ⟨0.50, 0.5, 100⟩, ⟨0.60, 0.5, 200⟩, ⟨0.50, 0.5, 300⟩], 0, 0, some WaveDir.right⟩, []) := by
  have h : ([((0 : ℝ), (0.40 : ℝ)), ((100 : ℝ), (0.50 : ℝ)), ((200 : ℝ), (0.60 : ℝ)), ((300 : ℝ), (0.50 : ℝ))] : List (ℝ × ℝ)) = [((0 : ℝ), (0.40 : ℝ)), ((100 : ℝ), (0.50 : ℝ)), ((200 : ℝ), (0.60 : ℝ))] ++ [(300, 0.50)] := rfl
  rw [h, runWave_snoc, waveStep2]
  norm_num [detectWaveGesture, List.dropWhile, List.getD, List.get?, Option.getD,
    abs_of_pos, abs_of_neg, abs_zero]

lemma waveStep4 : runWave [((0 : ℝ), (0.40 : ℝ)), ((100 : ℝ), (0.50 : ℝ)), ((200 : ℝ), (0.60 : ℝ)), ((300 : ℝ), (0.50 : ℝ)), ((400 : ℝ), (0.40 : ℝ))] =
    (some ⟨[⟨0.40, 0.5, 0⟩, ⟨0.50, 0.5, 100⟩, ⟨0.60, 0.5, 200⟩, ⟨0.50, 0.5, 300⟩, ⟨0.40, 0.5, 400⟩], 1, 0, some WaveDir.left⟩, []) := by
  have h : ([((0 : ℝ), (0.40 : ℝ)), ((100 : ℝ), (0.50 : ℝ)), ((200 : ℝ), (0.60 : ℝ)), ((300 : ℝ), (0.50 : ℝ)), ((400 : ℝ), (0.40 : ℝ))] : List (ℝ × ℝ)) = [((0 : ℝ), (0.40 : ℝ)), ((100 : ℝ), (0.50 : ℝ)), ((200 : ℝ), (0.60 : ℝ)), ((300 : ℝ), (0.50 : ℝ))] ++ [(400, 0.40)] := rfl
  rw [h, runWave_snoc, waveStep3]
  norm_num [detectWaveGesture, List.dropWhile, List.getD, List.get?, Option.getD,
    abs_of_pos, abs_of_neg, abs_zero]
  simp

lemma waveStep5 : runWave [((0 : ℝ), (0.40 : ℝ)), ((100 : ℝ), (0.50 : ℝ)), ((200 : ℝ), (0.60 : ℝ)), ((300 : ℝ), (0.50 : ℝ)), ((400 : ℝ), (0.40 : ℝ)), ((500 : ℝ), (0.50 : ℝ))] =
    (some ⟨[⟨0.40, 0.5, 0⟩, ⟨0.50, 0.5, 100⟩, ⟨0.60, 0.5, 200⟩, ⟨0.50, 0.5, 300⟩, ⟨0.40, 0.5, 400⟩, ⟨0.50, 0.5, 500⟩], 1, 0, some WaveDir.left⟩, []) := by
  have h : ([((0 : ℝ), (0.40 : ℝ)), ((100 : ℝ), (0.50 : ℝ)), ((200 : ℝ), (0.60 : ℝ)), ((300 : ℝ), (0.50 : ℝ)), ((400 : ℝ), (0.40 : ℝ)), ((500 : ℝ), (0.50 : ℝ))] : List (ℝ × ℝ)) = [((0 : ℝ), (0.40 : ℝ)), ((100 : ℝ), (0.50 : ℝ)), ((200 : ℝ), (0.60 : ℝ)), ((300 : ℝ), (0.50 : ℝ)), ((400 : ℝ), (0.40 : ℝ))] ++ [(500, 0.50)] := rfl
  rw [h, runWave_snoc, waveStep4]
  norm_num [detectWaveGesture, List.dropWhile, List.getD, List.get?, Option.getD,
    abs_of_pos, abs_of_neg, abs_zero]

lemma waveStep6 : runWave [((0 : ℝ), (0.40 : ℝ)), ((100 : ℝ), (0.50 : ℝ)), ((200 : ℝ), (0.60 : ℝ)), ((300 : ℝ), (0.50 : ℝ)), ((400 : ℝ), (0.40 : ℝ)), ((500 : ℝ), (0.50 : ℝ)), ((600 : ℝ), (0.60 : ℝ))] =
    (some ⟨[⟨0.40, 0.5, 0⟩, ⟨0.50, 0.5, 100⟩, ⟨0.60, 0.5, 200⟩, ⟨0.50, 0.5, 300⟩, ⟨0.40, 0.5, 400⟩, ⟨0.50, 0.5, 500⟩, ⟨0.60, 0.5, 600⟩], 0, 1600, some WaveDir.right⟩, [(600 : ℝ)]) := by
  have h : ([((0 : ℝ), (0.40 : ℝ)), ((100 : ℝ), (0.50 : ℝ)), ((200 : ℝ), (0.60 : ℝ)), ((300 : ℝ), (0.50 : ℝ)), ((400 : ℝ), (0.40 : ℝ)), ((500 : ℝ), (0.50 : ℝ)), ((600 : ℝ), (0.60 : ℝ))] : List (ℝ × ℝ)) = [((0 : ℝ), (0.40 : ℝ)), ((100 : ℝ), (0.50 : ℝ)), ((200 : ℝ), (0.60 : ℝ)), ((300 : ℝ), (0.50 : ℝ)), ((400 : ℝ), (0.40 : ℝ)), ((500 : ℝ), (0.50 : ℝ))] ++ [(600, 0.60)] := rfl
  rw [h, runWave_snoc, waveStep5]
  norm_num [detectWaveGesture, List.dropWhile, List.getD, List.get?, Option.getD,
    abs_of_pos, abs_of_neg, abs_zero]
  simp

lemma waveStep7 : runWave [((0 : ℝ), (0.40 : ℝ)), ((100 : ℝ), (0.50 : ℝ)), ((200 : ℝ), (0.60 : ℝ)), ((300 : ℝ), (0.50 : ℝ)), ((400 : ℝ), (0.40 : ℝ)), ((500 : ℝ), (0.50 : ℝ)), ((600 : ℝ), (0.60 : ℝ)), ((700 : ℝ), (0.50 : ℝ))] =
    (some ⟨[⟨0.40, 0.5, 0⟩, ⟨0.50, 0.5, 100⟩, ⟨0.60, 0.5, 200⟩, ⟨0.50, 0.5, 300⟩, ⟨0.40, 0.5, 400⟩, ⟨0.50, 0.5, 500⟩, ⟨0.60, 0.5, 600⟩, ⟨0.50, 0.5, 700⟩], 0, 1600, some WaveDir.right⟩, [(600 : ℝ)]) := by
  have h : ([((0 : ℝ), (0.40 : ℝ)), ((100 : ℝ), (0.50 : ℝ)), ((200 : ℝ), (0.60 : ℝ)), ((300 : ℝ), (0.50 : ℝ)), ((400 : ℝ), (0.40 : ℝ)), ((500 : ℝ), (0.50 : ℝ)), ((600 : ℝ), (0.60 : ℝ)), ((700 : ℝ), (0.50 : ℝ))] : List (ℝ × ℝ)) = [((0 : ℝ), (0.40 : ℝ)), ((100 : ℝ), (0.50 : ℝ)), ((200 : ℝ), (0.60 : ℝ)), ((300 : ℝ), (0.50 : ℝ)), ((400 : ℝ), (0.40 : ℝ)), ((500 : ℝ), (0.50 : ℝ)), ((600 : ℝ), (0.60 : ℝ))] ++ [(700, 0.50)] := rfl
  rw [h, runWave_snoc, waveStep6]
  norm_num [detectWaveGesture, List.dropWhile, List.getD, List.get?, Option.getD,
    abs_of_pos, abs_of_neg, abs_zero]

lemma waveStep8 : runWave [((0 : ℝ), (0.40 : ℝ)), ((100 : ℝ), (0.50 : ℝ)), ((200 : ℝ), (0.60 : ℝ)), ((300 : ℝ), (0.50 : ℝ)), ((400 : ℝ), (0.40 : ℝ)), ((500 : ℝ), (0.50 : ℝ)), ((600 : ℝ), (0.60 : ℝ)), ((700 : ℝ), (0.50 : ℝ)), ((800 : ℝ), (0.40 : ℝ))] =
    (some ⟨[⟨0.40, 0.5, 0⟩, ⟨0.50, 0.5, 100⟩, ⟨0.60, 0.5, 200⟩, ⟨0.50, 0.5, 300⟩, ⟨0.40, 0.5, 400⟩, ⟨0.50, 0.5, 500⟩, ⟨0.60, 0.5, 600⟩, ⟨0.50, 0.5, 700⟩, ⟨0.40, 0.5, 800⟩], 1, 1600, some WaveDir.left⟩, [(600 : ℝ)]) := by
  have h : ([((0 : ℝ), (0.40 : ℝ)), ((100 : ℝ), (0.50 : ℝ)), ((200 : ℝ), (0.60 : ℝ)), ((300 : ℝ), (0.50 : ℝ)), ((400 : ℝ), (0.40 : ℝ)), ((500 : ℝ), (0.50 : ℝ)), ((600 : ℝ), (0.60 : ℝ)), ((700 : ℝ), (0.50 : ℝ)), ((800 : ℝ), (0.40 : ℝ))] : List (ℝ × ℝ)) = [((0 : ℝ), (0.40 : ℝ)), ((100 : ℝ), (0.50 : ℝ)), ((200 : ℝ), (0.60 : ℝ)), ((300 : ℝ), (0.50 : ℝ)), ((400 : ℝ), (0.40 : ℝ)), ((500 : ℝ), (0.50 : ℝ)), ((600 : ℝ), (0.60 : ℝ)), ((700 : ℝ), (0.50 : ℝ))] ++ [(800, 0.40)] := rfl
  rw [h, runWave_snoc, waveStep7]
  norm_num [detectWaveGesture, List.dropWhile, List.getD, List.get?, Option.getD,
    abs_of_pos, abs_of_neg, abs_zero]
  simp

lemma waveStep9 : runWave [((0 : ℝ), (0.40 : ℝ)), ((100 : ℝ), (0.50 : ℝ)), ((200 : ℝ), (0.60 : ℝ)), ((300 : ℝ), (0.50 : ℝ)), ((400 : ℝ), (0.40 : ℝ)), ((500 : ℝ), (0.50 : ℝ)), ((600 : ℝ), (0.60 : ℝ)), ((700 : ℝ), (0.50 : ℝ)), ((800 : ℝ), (0.40 : ℝ)), ((900 : ℝ), (0.50 : ℝ))] =
    (some ⟨[⟨0.40, 0.5, 0⟩, ⟨0.50, 0.5, 100⟩, ⟨0.60, 0.5, 200⟩, ⟨0.50, 0.5, 300⟩, ⟨0.40, 0.5, 400⟩, ⟨0.50, 0.5, 500⟩, ⟨0.60, 0.5, 600⟩, ⟨0.50, 0.5, 700⟩, ⟨0.40, 0.5, 800⟩, ⟨0.50, 0.5, 900⟩], 1, 1600, some WaveDir.left⟩, [(600 : ℝ)]) := by
  have h : ([((0 : ℝ), (0.40 : ℝ)), ((100 : ℝ), (0.50 : ℝ)), ((200 : ℝ), (0.60 : ℝ)), ((300 : ℝ), (0.50 : ℝ)), ((400 : ℝ), (0.40 : ℝ)), ((500 : ℝ), (0.50 : ℝ)), ((600 : ℝ), (0.60 : ℝ)), ((700 : ℝ), (0.50 : ℝ)), ((800 : ℝ), (0.40 : ℝ)), ((900 : ℝ), (0.50 : ℝ))] : List (ℝ × ℝ)) = [((0 : ℝ), (0.40 : ℝ)), ((100 : ℝ), (0.50 : ℝ)), ((200 : ℝ), (0.60 : ℝ)), ((300 : ℝ), (0.50 : ℝ)), ((400 : ℝ), (0.40 : ℝ)), ((500 : ℝ), (0.50 : ℝ)), ((600 : ℝ), (0.60 : ℝ)), ((700 : ℝ), (0.50 : ℝ)), ((800 : ℝ), (0.40 : ℝ))] ++ [(900, 0.50)] := rfl
  rw [h, runWave_snoc, waveStep8]
  norm_num [detectWaveGesture, List.dropWhile, List.getD, List.get?, Option.getD,
    abs_of_pos, abs_of_neg, abs_zero]

lemma waveStep10 : runWave [((0 : ℝ), (0.40 : ℝ)), ((100 : ℝ), (0.50 : ℝ)), ((200 : ℝ), (0.60 : ℝ)), ((300 : ℝ), (0.50 : ℝ)), ((400 : ℝ), (0.40 : ℝ)), ((500 : ℝ), (0.50 : ℝ)), ((600 : ℝ), (0.60 : ℝ)), ((700 : ℝ), (0.50 : ℝ)), ((800 : ℝ), (0.40 : ℝ)), ((900 : ℝ), (0.50 : ℝ)), ((1000 : ℝ), (0.60 : ℝ))] =
    (some ⟨[⟨0.40, 0.5, 0⟩, ⟨0.50, 0.5, 100⟩, ⟨0.60, 0.5, 200⟩, ⟨0.50, 0.5, 300⟩, ⟨0.40, 0.5, 400⟩, ⟨0.50, 0.5, 500⟩, ⟨0.60, 0.5, 600⟩, ⟨0.50, 0.5, 700⟩, ⟨0.40, 0.5, 800⟩, ⟨0.50, 0.5, 900⟩, ⟨0.60, 0.5, 1000⟩], 0, 2000, some WaveDir.right⟩, [(600 : ℝ), (1000 : ℝ)]) := by
  have h : ([((0 : ℝ), (0.40 : ℝ)), ((100 : ℝ), (0.50 : ℝ)), ((200 : ℝ), (0.60 : ℝ)), ((300 : ℝ), (0.50 : ℝ)), ((400 : ℝ), (0.40 : ℝ)), ((500 : ℝ), (0.50 : ℝ)), ((600 : ℝ), (0.60 : ℝ)), ((700 : ℝ), (0.50 : ℝ)), ((800 : ℝ), (0.40 : ℝ)), ((900 : ℝ), (0.50 : ℝ)), ((1000 : ℝ), (0.60 : ℝ))] : List (ℝ × ℝ)) = [((0 : ℝ), (0.40 : ℝ)), ((100 : ℝ), (0.50 : ℝ)), ((200 : ℝ), (0.60 : ℝ)), ((300 : ℝ), (0.50 : ℝ)), ((400 : ℝ), (0.40 : ℝ)), ((500 : ℝ), (0.50 : ℝ)), ((600 : ℝ), (0.60 : ℝ)), ((700 : ℝ), (0.50 : ℝ)), ((800 : ℝ), (0.40 : ℝ)), ((900 : ℝ), (0.50 : ℝ))] ++ [(1000, 0.60)] := rfl
  rw [h, runWave_snoc, waveStep9]
  norm_num [detectWaveGesture, List.dropWhile, List.getD, List.get?, Option.getD,
    abs_of_pos, abs_of_neg, abs_zero]
  simp

/-- C4: after the first wave fires at t = 600 the reversal counter is
reset and the window start is pushed forward by 1000ms (to 1600), exactly
as the claim's mechanism says — but the cooldown does not work: the same
oscillation repeated immediately re-fires at t = 1000, only 400ms after
the first wave, because `now − waveStartTime < 2000` is trivially true
when waveStartTime lies in the future.  The code emits a second wave
within the 1000ms cooldown, contradicting the claim. -/
theorem wave_retriggers_within_cooldown :
    (runWave [((0 : ℝ), (0.40 : ℝ)), (100, 0.50), (200, 0.60), (300, 0.50), (400, 0.40),
        (500, 0.50), (600, 0.60)]).1 =
      some ⟨[⟨0.40, 0.5, 0⟩, ⟨0.50, 0.5, 100⟩, ⟨0.60, 0.5, 200⟩, ⟨0.50, 0.5, 300⟩,
        ⟨0.40, 0.5, 400⟩, ⟨0.50, 0.5, 500⟩, ⟨0.60, 0.5, 600⟩], 0, 600 + 1000,
        some WaveDir.right⟩ ∧
    (runWave waveTimeline).2 = [600, 1000] ∧ ((1000 : ℝ) - 600 < 1000) := by
  refine ⟨?_, ?_, by norm_num⟩
  · rw [waveStep6]
    norm_num
  · have h : waveTimeline = [((0 : ℝ), (0.40 : ℝ)), (100, 0.50), (200, 0.60), (300, 0.50),
        (400, 0.40), (500, 0.50), (600, 0.60), (700, 0.50), (800, 0.40), (900, 0.50),
        (1000, 0.60)] := rfl
    rw [h, waveStep10]

/-- Retained samples after a trim lie inside the look-back window, given a
time-sorted queue. -/
lemma dropWhile_time_bound (now w : ℝ) (l : List WSample) (hs : timesSorted l) :
    ∀ p ∈ l.dropWhile (fun q => decide (now - q.time > w)), now - p.time ≤ w := by
  induction l with
  | nil => simp
  | cons a tl ih =>
    intro p hp
    rw [List.dropWhile_cons] at hp
    by_cases ha : now - a.time > w
    · rw [if_pos (by simpa using ha)] at hp
      exact ih (List.pairwise_cons.mp hs).2 p hp
    · rw [if_neg (by simpa using ha)] at hp
      rcases List.mem_cons.mp hp with rfl | hmem
      · exact le_of_not_lt ha
      · have h1 := (List.pairwise_cons.mp hs).1 p hmem
        have h2 : now - p.time ≤ now - a.time := by linarith
        exact h2.trans (le_of_not_lt ha)

/-- Pushing the current sample and trimming preserves sortedness and keeps
every retained sample inside the look-back window. -/
lemma trimmed_inv (now w : ℝ) (P : List WSample) (new : WSample)
    (hsorted : timesSorted P) (hble : ∀ p ∈ P, p.time ≤ now) (hnew : new.time = now) :
    timesSorted ((P ++ [new]).dropWhile (fun q => decide (now - q.time > w))) ∧
    ∀ p ∈ (P ++ [new]).dropWhile (fun q => decide (now - q.time > w)),
      p.time ≤ now ∧ now - p.time ≤ w := by
  have hQ : timesSorted (P ++ [new]) := by
    rw [timesSorted, List.pairwise_append]
    exact ⟨hsorted, List.pairwise_singleton _ _, fun a ha b hb => by
      rw [List.mem_singleton.mp hb, hnew]; exact hble a ha⟩
  refine ⟨(List.Pairwise.sublist (List.dropWhile_sublist _) hQ), fun p hp => ⟨?_, ?_⟩⟩
  · have hmem := List.dropWhile_subset _ hp
    rcases List.mem_append.mp hmem with h | h
    · exact hble p h
    · rw [List.mem_singleton.mp h, hnew]
  · exact dropWhile_time_bound now w _ hQ p hp

/-- Every branch of the wave detector stores the trimmed pushed queue. -/
lemma detectWave_positions (wrist : Vec3) (now : ℝ) (st0 : Option WaveRec) :
    (detectWaveGesture wrist now st0).1.positions =
      ((st0.getD ⟨[], 0, now, none⟩).positions ++
        [(⟨wrist.x, wrist.y, now⟩ : WSample)]).dropWhile
          (fun p => decide (now - p.time > 2000)) := by
  simp only [detectWaveGesture]
  split_ifs <;> rfl

/-- C9: one step of either temporal detector keeps its queue inside the
detector's fixed look-back window, measured from the latest processed
frame time: 2000ms for the wave queue, 500ms for the swipe queue (where a
non-empty buffer also certifies the hand is outside the 1000ms refractory
period, which is what keeps the refractory early-return from retaining
stale samples). -/
theorem queue_window_invariant (wrist : Vec3) (t now : ℝ) (hmono : t ≤ now)
    (wst : Option WaveRec) (sst : Option SwipeRec)
    (hw : ∀ r, wst = some r → waveInv t r) (hs : ∀ r, sst = some r → swipeInv t r) :
    waveInv now (detectWaveGesture wrist now wst).1 ∧
    swipeInv now (detectSwipeGesture wrist now sst).1 := by
  constructor
  · have hsorted : timesSorted (wst.getD ⟨[], 0, now, none⟩).positions := by
      rcases wst with _ | r
      · simp [timesSorted]
      · exact (hw r rfl).1
    have hble : ∀ p ∈ (wst.getD ⟨[], 0, now, none⟩).positions, p.time ≤ now := by
      rcases wst with _ | r
      · simp
      · exact fun p hp => le_trans ((hw r rfl).2 p hp).1 hmono
    obtain ⟨h1, h2⟩ := trimmed_inv now 2000 _ ⟨wrist.x, wrist.y, now⟩ hsorted hble rfl
    rw [waveInv, detectWave_positions]
    exact ⟨h1, h2⟩
  · simp only [detectSwipeGesture]
    have hsorted : timesSorted (sst.getD ⟨[], now, ⟨wrist.x, wrist.y, now⟩,
        (0, 0), 0⟩).positions := by
      rcases sst with _ | r
      · simp [timesSorted]
      · exact (hs r rfl).1
    have hble : ∀ p ∈ (sst.getD ⟨[], now, ⟨wrist.x, wrist.y, now⟩, (0, 0), 0⟩).positions,
        p.time ≤ now := by
      rcases sst with _ | r
      · simp
      · exact fun p hp => le_trans ((hs r rfl).2.1 p hp).1 hmono
    obtain ⟨h1, h2⟩ := trimmed_inv now 500 _ ⟨wrist.x, wrist.y, now⟩ hsorted hble rfl
    by_cases hr : now - (sst.getD ⟨[], now, ⟨wrist.x, wrist.y, now⟩,
        (0, 0), 0⟩).lastSwipeTime < 1000
    · rw [if_pos hr]
      have hemp : (sst.getD ⟨[], now, ⟨wrist.x, wrist.y, now⟩, (0, 0), 0⟩).positions = [] := by
        rcases sst with _ | r
        · rfl
        · by_contra hne
          have h3 := (hs r rfl).2.2 hne
          have h4 : t - r.lastSwipeTime ≤ now - r.lastSwipeTime := by linarith
          simp only [Option.getD_some] at hr
          linarith
      show swipeInv now (sst.getD ⟨[], now, ⟨wrist.x, wrist.y, now⟩, (0, 0), 0⟩)
      rw [swipeInv, hemp]
      simp [timesSorted]
    · rw [if_neg hr]
      have hout : (1000 : ℝ) ≤ now -
          (sst.getD ⟨[], now, ⟨wrist.x, wrist.y, now⟩, (0, 0), 0⟩).lastSwipeTime :=
        not_lt.mp hr
      by_cases hl : (((sst.getD ⟨[], now, ⟨wrist.x, wrist.y, now⟩, (0, 0), 0⟩).positions ++
          [(⟨wrist.x, wrist.y, now⟩ : WSample)]).dropWhile
            (fun p => decide (now - p.time > 500))).length < 5
      · rw [if_pos hl]
        exact ⟨h1, h2, fun _ => hout⟩
      · rw [if_neg hl]
        rw [swipeInv]
        split_ifs <;>
          first
            | exact ⟨h1, h2, fun _ => hout⟩
            | exact ⟨by simp [timesSorted], by simp, by simp⟩

/-- C9 (witness): the invariant theorem applied to a concrete step: the
first frame for a hand at time 0 with an empty prior state. -/
theorem queue_window_invariant_witness :
    waveInv 0 (detectWaveGesture ⟨0.5, 0.5, 0⟩ 0 none).1 ∧
    swipeInv 0 (detectSwipeGesture ⟨0.5, 0.5, 0⟩ 0 none).1 :=
  queue_window_invariant ⟨0.5, 0.5, 0⟩ 0 0 le_rfl none none
    (fun r hr => by cases hr) (fun r hr => by cases hr)

/-- The refractory early-return of the swipe detector. -/
lemma detectSwipe_refractory (wrist : Vec3) (now : ℝ) (st0 : Option SwipeRec)
    (h : now - (st0.getD ⟨[], now, ⟨wrist.x, wrist.y, now⟩, (0, 0), 0⟩).lastSwipeTime < 1000) :
    detectSwipeGesture wrist now st0 =
      (st0.getD ⟨[], now, ⟨wrist.x, wrist.y, now⟩, (0, 0), 0⟩, none) := by
  simp only [detectSwipeGesture]
  rw [if_pos h]

lemma runSwipe_snoc (fs : List (ℝ × ℝ × ℝ)) (f : ℝ × ℝ × ℝ) :
    runSwipe (fs ++ [f]) =
      (some (detectSwipeGesture ⟨f.2.1, f.2.2, 0⟩ f.1 (runSwipe fs).1).1,
       (runSwipe fs).2 ++
         (match (detectSwipeGesture ⟨f.2.1, f.2.2, 0⟩ f.1 (runSwipe fs).1).2 with
           | some g => [(f.1, g)]
           | none => [])) := by
  unfold runSwipe
  simp only [List.foldl_append, List.foldl_cons, List.foldl_nil]

lemma swStep0 : runSwipe [((10000 : ℝ), (0.5 : ℝ), (0.5 : ℝ))] =
    (some ⟨[⟨0.5, 0.5, 10000⟩], 10000, ⟨0.5, 0.5, 10000⟩, (0, 0), 0⟩, []) := by
  unfold runSwipe
  simp only [List.foldl_cons, List.foldl_nil]
  simp [detectSwipe_first ⟨(0.5 : ℝ), (0.5 : ℝ), 0⟩ 10000 (by norm_num)]

lemma swStep1 : runSwipe [((10000 : ℝ), (0.5 : ℝ), (0.5 : ℝ)), (10075, 0.55, 0.5)] =
    (some ⟨[⟨0.5, 0.5, 10000⟩, ⟨0.55, 0.5, 10075⟩], 10000, ⟨0.5, 0.5, 10000⟩, (0, 0), 0⟩,
     []) := by
  have h : ([((10000 : ℝ), (0.5 : ℝ), (0.5 : ℝ)), (10075, 0.55, 0.5)] :
      List (ℝ × ℝ × ℝ)) = [(10000, 0.5, 0.5)] ++ [(10075, 0.55, 0.5)] := rfl
  rw [h, runSwipe_snoc, swStep0]
  norm_num [detectSwipeGesture, List.dropWhile, Option.getD]

lemma swStep2 : runSwipe [((10000 : ℝ), (0.5 : ℝ), (0.5 : ℝ)), (10075, 0.55, 0.5),
    (10150, 0.6, 0.5)] =
    (some ⟨[⟨0.5, 0.5, 10000⟩, ⟨0.55, 0.5, 10075⟩, ⟨0.6, 0.5, 10150⟩], 10000,
      ⟨0.5, 0.5, 10000⟩, (0, 0), 0⟩, []) := by
  have h : ([((10000 : ℝ), (0.5 : ℝ), (0.5 : ℝ)), (10075, 0.55, 0.5), (10150, 0.6, 0.5)] :
      List (ℝ × ℝ × ℝ)) =
      [(10000, 0.5, 0.5), (10075, 0.55, 0.5)] ++ [(10150, 0.6, 0.5)] := rfl
  rw [h, runSwipe_snoc, swStep1]
  norm_num [detectSwipeGesture, List.dropWhile, Option.getD]

lemma swStep3 : runSwipe [((10000 : ℝ), (0.5 : ℝ), (0.5 : ℝ)), (10075, 0.55, 0.5),
    (10150, 0.6, 0.5), (10225, 0.65, 0.5)] =
    (some ⟨[⟨0.5, 0.5, 10000⟩, ⟨0.55, 0.5, 10075⟩, ⟨0.6, 0.5, 10150⟩, ⟨0.65, 0.5, 10225⟩],
      10000, ⟨0.5, 0.5, 10000⟩, (0, 0), 0⟩, []) := by
  have h : ([((10000 : ℝ), (0.5 : ℝ), (0.5 : ℝ)), (10075, 0.55, 0.5), (10150, 0.6, 0.5),
      (10225, 0.65, 0.5)] : List (ℝ × ℝ × ℝ)) =
      [(10000, 0.5, 0.5), (10075, 0.55, 0.5), (10150, 0.6, 0.5)] ++ [(10225, 0.65, 0.5)] := rfl
  rw [h, runSwipe_snoc, swStep2]
  norm_num [detectSwipeGesture, List.dropWhile, Option.getD]

/-- The fifth sample (total displacement (0.21, 0.01) over 300ms) fires a
right swipe and clears the buffer. -/
lemma swipeEmit : ∃ sp, detectSwipeGesture ⟨0.71, 0.51, 0⟩ 10300
    (some ⟨[⟨0.5, 0.5, 10000⟩, ⟨0.55, 0.5, 10075⟩, ⟨0.6, 0.5, 10150⟩, ⟨0.65, 0.5, 10225⟩],
      10000, ⟨0.5, 0.5, 10000⟩, (0, 0), 0⟩) =
    (⟨[], 10300, ⟨0.5, 0.5, 10000⟩, (0, 0), 10300⟩,
     some ⟨"swipe", some "right", none, none, some sp, none, 0.9⟩) := by
  unfold detectSwipeGesture
  norm_num [List.dropWhile, List.getD, List.get?, jsDiv, jsAbs, jsGt,
    abs_of_pos, abs_of_neg, abs_zero]

/-- C6: the swipe detector refuses to process during the 1000ms refractory
period; otherwise, with the trimmed buffer ps (samples from the last
500ms), it emits exactly when ps holds at least 5 samples and the
oldest-to-newest displacement and velocity exceed the thresholds, with
direction by the dominant delta, speed = sqrt(vx² + vy²), and a cleared
buffer; and on the concrete 5-sample / 300ms scenario it fires one right
swipe at t = 10300 while the identical motion repeated within 1000ms is
suppressed. -/
theorem swipe_detector_spec :
    (∀ (wrist : Vec3) (now : ℝ) (st0 : Option SwipeRec),
      now - (st0.getD ⟨[], now, ⟨wrist.x, wrist.y, now⟩, (0, 0), 0⟩).lastSwipeTime < 1000 →
      detectSwipeGesture wrist now st0 =
        (st0.getD ⟨[], now, ⟨wrist.x, wrist.y, now⟩, (0, 0), 0⟩, none)) ∧
    (∀ (wrist : Vec3) (now : ℝ) (st0 : Option SwipeRec) (ps : List WSample),
      ¬(now - (st0.getD ⟨[], now, ⟨wrist.x, wrist.y, now⟩, (0, 0), 0⟩).lastSwipeTime < 1000) →
      ps = ((st0.getD ⟨[], now, ⟨wrist.x, wrist.y, now⟩, (0, 0), 0⟩).positions ++
        [(⟨wrist.x, wrist.y, now⟩ : WSample)]).dropWhile (fun p => decide (now - p.time > 500)) →
      ∀ dx dy td,
      dx = (ps.getD (ps.length - 1) ⟨0, 0, 0⟩).x - (ps.getD 0 ⟨0, 0, 0⟩).x →
      dy = (ps.getD (ps.length - 1) ⟨0, 0, 0⟩).y - (ps.getD 0 ⟨0, 0, 0⟩).y →
      td = ((ps.getD (ps.length - 1) ⟨0, 0, 0⟩).time - (ps.getD 0 ⟨0, 0, 0⟩).time) / 1000 →
      (ps.length < 5 →
        detectSwipeGesture wrist now st0 =
          ({ st0.getD ⟨[], now, ⟨wrist.x, wrist.y, now⟩, (0, 0), 0⟩ with positions := ps },
           none)) ∧
      (5 ≤ ps.length →
        (((|dx| > 0.15 ∨ |dy| > 0.15) ∧
            (jsGt (jsAbs (jsDiv dx td)) 0.5 = true ∨ jsGt (jsAbs (jsDiv dy td)) 0.5 = true)) →
          detectSwipeGesture wrist now st0 =
            ({ st0.getD ⟨[], now, ⟨wrist.x, wrist.y, now⟩, (0, 0), 0⟩ with
                positions := ([] : List WSample)
                startTime := now
                lastSwipeTime := now },
             some ⟨"swipe",
               some (if |dx| > |dy| then (if dx > 0 then "right" else "left")
                 else (if dy > 0 then "down" else "up")),
               none, none,
               some (jsSqrt (jsAdd (jsMul (jsDiv dx td) (jsDiv dx td))
                 (jsMul (jsDiv dy td) (jsDiv dy td)))), none, 0.9⟩)) ∧
        (¬((|dx| > 0.15 ∨ |dy| > 0.15) ∧
            (jsGt (jsAbs (jsDiv dx td)) 0.5 = true ∨ jsGt (jsAbs (jsDiv dy td)) 0.5 = true)) →
          detectSwipeGesture wrist now st0 =
            ({ st0.getD ⟨[], now, ⟨wrist.x, wrist.y, now⟩, (0, 0), 0⟩ with positions := ps },
             none)))) ∧
    (runSwipe swipeTimeline).2.map (fun e => (e.1, e.2.name, e.2.direction)) =
      [(10300, "swipe", some "right")] := by
  refine ⟨detectSwipe_refractory, ?_, ?_⟩
  · intro wrist now st0 ps hr hps dx dy td hdx hdy htd
    subst hdx
    subst hdy
    subst htd
    subst hps
    refine ⟨?_, ?_⟩
    · intro h5
      simp only [detectSwipeGesture]
      rw [if_neg hr, if_pos h5]
    · intro h5
      constructor
      · intro hc
        simp only [detectSwipeGesture]
        rw [if_neg hr, if_neg (not_lt.mpr h5), if_pos hc]
      · intro hc
        simp only [detectSwipeGesture]
        rw [if_neg hr, if_neg (not_lt.mpr h5), if_neg hc]
  · obtain ⟨sp, hemit⟩ := swipeEmit
    have h4 : runSwipe [((10000 : ℝ), (0.5 : ℝ), (0.5 : ℝ)), ((10075 : ℝ), (0.55 : ℝ), (0.5 : ℝ)), ((10150 : ℝ), (0.6 : ℝ), (0.5 : ℝ)), ((10225 : ℝ), (0.65 : ℝ), (0.5 : ℝ)), ((10300 : ℝ), (0.71 : ℝ), (0.51 : ℝ))] =
        (some ⟨[], 10300, ⟨0.5, 0.5, 10000⟩, (0, 0), 10300⟩, [((10300 : ℝ), (⟨"swipe", some "right", none, none, some sp, none, 0.9⟩ : Gesture))]) := by
      rw [show ([((10000 : ℝ), (0.5 : ℝ), (0.5 : ℝ)), ((10075 : ℝ), (0.55 : ℝ), (0.5 : ℝ)), ((10150 : ℝ), (0.6 : ℝ), (0.5 : ℝ)), ((10225 : ℝ), (0.65 : ℝ), (0.5 : ℝ)), ((10300 : ℝ), (0.71 : ℝ), (0.51 : ℝ))] : List (ℝ × ℝ × ℝ)) = [((10000 : ℝ), (0.5 : ℝ), (0.5 : ℝ)), ((10075 : ℝ), (0.55 : ℝ), (0.5 : ℝ)), ((10150 : ℝ), (0.6 : ℝ), (0.5 : ℝ)), ((10225 : ℝ), (0.65 : ℝ), (0.5 : ℝ))] ++ [(10300, 0.71, 0.51)] from rfl,
        runSwipe_snoc, swStep3]
      simp only [Prod.mk_zero_zero] at hemit
      simp [hemit]
    have h5 : runSwipe [((10000 : ℝ), (0.5 : ℝ), (0.5 : ℝ)), ((10075 : ℝ), (0.55 : ℝ), (0.5 : ℝ)), ((10150 : ℝ), (0.6 : ℝ), (0.5 : ℝ)), ((10225 : ℝ), (0.65 : ℝ), (0.5 : ℝ)), ((10300 : ℝ), (0.71 : ℝ), (0.51 : ℝ)), ((10400 : ℝ), (0.5 : ℝ), (0.5 : ℝ))] =
        (some ⟨[], 10300, ⟨0.5, 0.5, 10000⟩, (0, 0), 10300⟩, [((10300 : ℝ), (⟨"swipe", some "right", none, none, some sp, none, 0.9⟩ : Gesture))]) := by
      rw [show ([((10000 : ℝ), (0.5 : ℝ), (0.5 : ℝ)), ((10075 : ℝ), (0.55 : ℝ), (0.5 : ℝ)), ((10150 : ℝ), (0.6 : ℝ), (0.5 : ℝ)), ((10225 : ℝ), (0.65 : ℝ), (0.5 : ℝ)), ((10300 : ℝ), (0.71 : ℝ), (0.51 : ℝ)), ((10400 : ℝ), (0.5 : ℝ), (0.5 : ℝ))] : List (ℝ × ℝ × ℝ)) = [((10000 : ℝ), (0.5 : ℝ), (0.5 : ℝ)), ((10075 : ℝ), (0.55 : ℝ), (0.5 : ℝ)), ((10150 : ℝ), (0.6 : ℝ), (0.5 : ℝ)), ((10225 : ℝ), (0.65 : ℝ), (0.5 : ℝ)), ((10300 : ℝ), (0.71 : ℝ), (0.51 : ℝ))] ++ [(10400, 0.5, 0.5)] from rfl,
        runSwipe_snoc, h4]
      simp [detectSwipe_refractory ⟨0.5, 0.5, 0⟩ 10400 (some ⟨[], 10300, ⟨0.5, 0.5, 10000⟩, 0, 10300⟩) (by norm_num)]
    have h6 : runSwipe [((10000 : ℝ), (0.5 : ℝ), (0.5 : ℝ)), ((10075 : ℝ), (0.55 : ℝ), (0.5 : ℝ)), ((10150 : ℝ), (0.6 : ℝ), (0.5 : ℝ)), ((10225 : ℝ), (0.65 : ℝ), (0.5 : ℝ)), ((10300 : ℝ), (0.71 : ℝ), (0.51 : ℝ)), ((10400 : ℝ), (0.5 : ℝ), (0.5 : ℝ)), ((10475 : ℝ), (0.55 : ℝ), (0.5 : ℝ))] =
        (some ⟨[], 10300, ⟨0.5, 0.5, 10000⟩, (0, 0), 10300⟩, [((10300 : ℝ), (⟨"swipe", some "right", none, none, some sp, none, 0.9⟩ : Gesture))]) := by
      rw [show ([((10000 : ℝ), (0.5 : ℝ), (0.5 : ℝ)), ((10075 : ℝ), (0.55 : ℝ), (0.5 : ℝ)), ((10150 : ℝ), (0.6 : ℝ), (0.5 : ℝ)), ((10225 : ℝ), (0.65 : ℝ), (0.5 : ℝ)), ((10300 : ℝ), (0.71 : ℝ), (0.51 : ℝ)), ((10400 : ℝ), (0.5 : ℝ), (0.5 : ℝ)), ((10475 : ℝ), (0.55 : ℝ), (0.5 : ℝ))] : List (ℝ × ℝ × ℝ)) = [((10000 : ℝ), (0.5 : ℝ), (0.5 : ℝ)), ((10075 : ℝ), (0.55 : ℝ), (0.5 : ℝ)), ((10150 : ℝ), (0.6 : ℝ), (0.5 : ℝ)), ((10225 : ℝ), (0.65 : ℝ), (0.5 : ℝ)), ((10300 : ℝ), (0.71 : ℝ), (0.51 : ℝ)), ((10400 : ℝ), (0.5 : ℝ), (0.5 : ℝ))] ++ [(10475, 0.55, 0.5)] from rfl,
        runSwipe_snoc, h5]
      simp [detectSwipe_refractory ⟨0.55, 0.5, 0⟩ 10475 (some ⟨[], 10300, ⟨0.5, 0.5, 10000⟩, 0, 10300⟩) (by norm_num)]
    have h7 : runSwipe [((10000 : ℝ), (0.5 : ℝ), (0.5 : ℝ)), ((10075 : ℝ), (0.55 : ℝ), (0.5 : ℝ)), ((10150 : ℝ), (0.6 : ℝ), (0.5 : ℝ)), ((10225 : ℝ), (0.65 : ℝ), (0.5 : ℝ)), ((10300 : ℝ), (0.71 : ℝ), (0.51 : ℝ)), ((10400 : ℝ), (0.5 : ℝ), (0.5 : ℝ)), ((10475 : ℝ), (0.55 : ℝ), (0.5 : ℝ)), ((10550 : ℝ), (0.6 : ℝ), (0.5 : ℝ))] =
        (some ⟨[], 10300, ⟨0.5, 0.5, 10000⟩, (0, 0), 10300⟩, [((10300 : ℝ), (⟨"swipe", some "right", none, none, some sp, none, 0.9⟩ : Gesture))]) := by
      rw [show ([((10000 : ℝ), (0.5 : ℝ), (0.5 : ℝ)), ((10075 : ℝ), (0.55 : ℝ), (0.5 : ℝ)), ((10150 : ℝ), (0.6 : ℝ), (0.5 : ℝ)), ((10225 : ℝ), (0.65 : ℝ), (0.5 : ℝ)), ((10300 : ℝ), (0.71 : ℝ), (0.51 : ℝ)), ((10400 : ℝ), (0.5 : ℝ), (0.5 : ℝ)), ((10475 : ℝ), (0.55 : ℝ), (0.5 : ℝ)), ((10550 : ℝ), (0.6 : ℝ), (0.5 : ℝ))] : List (ℝ × ℝ × ℝ)) = [((10000 : ℝ), (0.5 : ℝ), (0.5 : ℝ)), ((10075 : ℝ), (0.55 : ℝ), (0.5 : ℝ)), ((10150 : ℝ), (0.6 : ℝ), (0.5 : ℝ)), ((10225 : ℝ), (0.65 : ℝ), (0.5 : ℝ)), ((10300 : ℝ), (0.71 : ℝ), (0.51 : ℝ)), ((10400 : ℝ), (0.5 : ℝ), (0.5 : ℝ)), ((10475 : ℝ), (0.55 : ℝ), (0.5 : ℝ))] ++ [(10550, 0.6, 0.5)] from rfl,
        runSwipe_snoc, h6]
      simp [detectSwipe_refractory ⟨0.6, 0.5, 0⟩ 10550 (some ⟨[], 10300, ⟨0.5, 0.5, 10000⟩, 0, 10300⟩) (by norm_num)]
    have h8 : runSwipe [((10000 : ℝ), (0.5 : ℝ), (0.5 : ℝ)), ((10075 : ℝ), (0.55 : ℝ), (0.5 : ℝ)), ((10150 : ℝ), (0.6 : ℝ), (0.5 : ℝ)), ((10225 : ℝ), (0.65 : ℝ), (0.5 : ℝ)), ((10300 : ℝ), (0.71 : ℝ), (0.51 : ℝ)), ((10400 : ℝ), (0.5 : ℝ), (0.5 : ℝ)), ((10475 : ℝ), (0.55 : ℝ), (0.5 : ℝ)), ((10550 : ℝ), (0.6 : ℝ), (0.5 : ℝ)), ((10625 : ℝ), (0.65 : ℝ), (0.5 : ℝ))] =
        (some ⟨[], 10300, ⟨0.5, 0.5, 10000⟩, (0, 0), 10300⟩, [((10300 : ℝ), (⟨"swipe", some "right", none, none, some sp, none, 0.9⟩ : Gesture))]) := by
      rw [show ([((10000 : ℝ), (0.5 : ℝ), (0.5 : ℝ)), ((10075 : ℝ), (0.55 : ℝ), (0.5 : ℝ)), ((10150 : ℝ), (0.6 : ℝ), (0.5 : ℝ)), ((10225 : ℝ), (0.65 : ℝ), (0.5 : ℝ)), ((10300 : ℝ), (0.71 : ℝ), (0.51 : ℝ)), ((10400 : ℝ), (0.5 : ℝ), (0.5 : ℝ)), ((10475 : ℝ), (0.55 : ℝ), (0.5 : ℝ)), ((10550 : ℝ), (0.6 : ℝ), (0.5 : ℝ)), ((10625 : ℝ), (0.65 : ℝ), (0.5 : ℝ))] : List (ℝ × ℝ × ℝ)) = [((10000 : ℝ), (0.5 : ℝ), (0.5 : ℝ)), ((10075 : ℝ), (0.55 : ℝ), (0.5 : ℝ)), ((10150 : ℝ), (0.6 : ℝ), (0.5 : ℝ)), ((10225 : ℝ), (0.65 : ℝ), (0.5 : ℝ)), ((10300 : ℝ), (0.71 : ℝ), (0.51 : ℝ)), ((10400 : ℝ), (0.5 : ℝ), (0.5 : ℝ)), ((10475 : ℝ), (0.55 : ℝ), (0.5 : ℝ)), ((10550 : ℝ), (0.6 : ℝ), (0.5 : ℝ))] ++ [(10625, 0.65, 0.5)] from rfl,
        runSwipe_snoc, h7]
      simp [detectSwipe_refractory ⟨0.65, 0.5, 0⟩ 10625 (some ⟨[], 10300, ⟨0.5, 0.5, 10000⟩, 0, 10300⟩) (by norm_num)]
    have h9 : runSwipe [((10000 : ℝ), (0.5 : ℝ), (0.5 : ℝ)), ((10075 : ℝ), (0.55 : ℝ), (0.5 : ℝ)), ((10150 : ℝ), (0.6 : ℝ), (0.5 : ℝ)), ((10225 : ℝ), (0.65 : ℝ), (0.5 : ℝ)), ((10300 : ℝ), (0.71 : ℝ), (0.51 : ℝ)), ((10400 : ℝ), (0.5 : ℝ), (0.5 : ℝ)), ((10475 : ℝ), (0.55 : ℝ), (0.5 : ℝ)), ((10550 : ℝ), (0.6 : ℝ), (0.5 : ℝ)), ((10625 : ℝ), (0.65 : ℝ), (0.5 : ℝ)), ((10700 : ℝ), (0.71 : ℝ), (0.51 : ℝ))] =
        (some ⟨[], 10300, ⟨0.5, 0.5, 10000⟩, (0, 0), 10300⟩, [((10300 : ℝ), (⟨"swipe", some "right", none, none, some sp, none, 0.9⟩ : Gesture))]) := by
      rw [show ([((10000 : ℝ), (0.5 : ℝ), (0.5 : ℝ)), ((10075 : ℝ), (0.55 : ℝ), (0.5 : ℝ)), ((10150 : ℝ), (0.6 : ℝ), (0.5 : ℝ)), ((10225 : ℝ), (0.65 : ℝ), (0.5 : ℝ)), ((10300 : ℝ), (0.71 : ℝ), (0.51 : ℝ)), ((10400 : ℝ), (0.5 : ℝ), (0.5 : ℝ)), ((10475 : ℝ), (0.55 : ℝ), (0.5 : ℝ)), ((10550 : ℝ), (0.6 : ℝ), (0.5 : ℝ)), ((10625 : ℝ), (0.65 : ℝ), (0.5 : ℝ)), ((10700 : ℝ), (0.71 : ℝ), (0.51 : ℝ))] : List (ℝ × ℝ × ℝ)) = [((10000 : ℝ), (0.5 : ℝ), (0.5 : ℝ)), ((10075 : ℝ), (0.55 : ℝ), (0.5 : ℝ)), ((10150 : ℝ), (0.6 : ℝ), (0.5 : ℝ)), ((10225 : ℝ), (0.65 : ℝ), (0.5 : ℝ)), ((10300 : ℝ), (0.71 : ℝ), (0.51 : ℝ)), ((10400 : ℝ), (0.5 : ℝ), (0.5 : ℝ)), ((10475 : ℝ), (0.55 : ℝ), (0.5 : ℝ)), ((10550 : ℝ), (0.6 : ℝ), (0.5 : ℝ)), ((10625 : ℝ), (0.65 : ℝ), (0.5 : ℝ))] ++ [(10700, 0.71, 0.51)] from rfl,
        runSwipe_snoc, h8]
      simp [detectSwipe_refractory ⟨0.71, 0.51, 0⟩ 10700 (some ⟨[], 10300, ⟨0.5, 0.5, 10000⟩, 0, 10300⟩) (by norm_num)]
    rw [show swipeTimeline = [((10000 : ℝ), (0.5 : ℝ), (0.5 : ℝ)), ((10075 : ℝ), (0.55 : ℝ), (0.5 : ℝ)), ((10150 : ℝ), (0.6 : ℝ), (0.5 : ℝ)), ((10225 : ℝ), (0.65 : ℝ), (0.5 : ℝ)), ((10300 : ℝ), (0.71 : ℝ), (0.51 : ℝ)), ((10400 : ℝ), (0.5 : ℝ), (0.5 : ℝ)), ((10475 : ℝ), (0.55 : ℝ), (0.5 : ℝ)), ((10550 : ℝ), (0.6 : ℝ), (0.5 : ℝ)), ((10625 : ℝ), (0.65 : ℝ), (0.5 : ℝ)), ((10700 : ℝ), (0.71 : ℝ), (0.51 : ℝ))] from rfl, h9]
    simp

/-- C8 (counterexample): a frame on which all four non-thumb fingers are
classified extended but whose thumb tip touches the index tip: the
classifier outputs pinch, not open, so "never outputs pinch" fails. -/
theorem all_fingers_extended_can_yield_pinch :
    isFingerExtendedImproved pinchOpenFrame 1 = some true ∧
    isFingerExtendedImproved pinchOpenFrame 2 = some true ∧
    isFingerExtendedImproved pinchOpenFrame 3 = some true ∧
    isFingerExtendedImproved pinchOpenFrame 4 = some true ∧
    (detectStaticGesture pinchOpenFrame none 10000).map (fun r => r.1.map Gesture.name) =
      some (some "pinch") := by
  refine ⟨finger_pinchOpen_1, finger_pinchOpen_2, finger_pinchOpen_3, finger_pinchOpen_4, ?_⟩
  rw [static_pinchOpenFrame_eq]
  simp only [staticCore, Option.map_some']
  norm_num [distance3D_x, abs_of_neg, Option.getD]

/-- C8 (amended): on any frame where all four non-thumb fingers are
classified extended AND the hand is not in the pinching state after the
pinch update (the pinch-priority override of the source), the static
classifier outputs open, never point, grab or pinch. -/
theorem open_when_extended_and_not_pinching (lm : List Vec3) (pst : Option PinchRec)
    (now : ℝ) (g : Option Gesture) (st' : PinchRec)
    (hrun : detectStaticGesture lm pst now = some (g, st'))
    (h1 : isFingerExtendedImproved lm 1 = some true)
    (h2 : isFingerExtendedImproved lm 2 = some true)
    (h3 : isFingerExtendedImproved lm 3 = some true)
    (h4 : isFingerExtendedImproved lm 4 = some true)
    (hnp : st'.isPinching = false) :
    g = some openG := by
  unfold detectStaticGesture at hrun
  rw [h1, h2, h3, h4] at hrun
  rcases hw : lm.get? 0 with _ | w <;> rw [hw] at hrun
  · exact absurd hrun (by simp)
  rcases hi : lm.get? 8 with _ | i8 <;> rw [hi] at hrun
  · exact absurd hrun (by simp)
  rcases ht : lm.get? 4 with _ | t4 <;> rw [ht] at hrun
  · exact absurd hrun (by simp)
  simp only [Option.some.injEq] at hrun
  have hfst : g = (staticCore true true true true w i8 t4 pst now).1 := by
    rw [hrun]
  have hsnd : st' = (staticCore true true true true w i8 t4 pst now).2 := by
    rw [hrun]
  rw [hsnd, staticCore_snd] at hnp
  simp only at hnp
  rw [hfst]
  simp only [staticCore]
  rw [hnp]
  simp [openG]

/-- C8 (witness): the amended theorem applied to the concrete open-hand
frame, on which the hand is not pinching: the classifier outputs open. -/
theorem open_when_extended_and_not_pinching_witness :
    ∃ g st', detectStaticGesture openFrame none 10000 = some (g, st') ∧ g = some openG := by
  have heval := static_openFrame_eq none 10000
  have hnp : (staticCore true true true true ⟨0.5, 0.5, 0⟩ ⟨0.9, 0.5, 0⟩ ⟨0.1, 0.5, 0⟩
      none 10000).2.isPinching = false := by
    rw [staticCore_snd]
    norm_num [distance3D_x, abs_of_neg, Option.getD]
  exact ⟨_, _, heval, open_when_extended_and_not_pinching openFrame none 10000 _ _ heval
    finger_open_1 finger_open_2 finger_open_3 finger_open_4 hnp⟩

/-- C5 (witness): the direction theorem applied at the concrete vector
(0, 0, -0.2), discharging the depth-dominance hypothesis there. -/
theorem point_direction_resolution_witness :
    pointingDirection 0 0 (-0.2) = some "forward" := by
  have h := (point_direction_resolution 0 0 (-0.2)).1
    (by norm_num [abs_neg, abs_of_pos, abs_zero])
  rw [h, if_pos (by norm_num : (-0.2 : ℝ) < 0)]

lemma zStep1 : runSwipe [((10000 : ℝ), (0.5 : ℝ), (0.5 : ℝ)), (10000, 0.55, 0.5)] =
    (some ⟨[⟨0.5, 0.5, 10000⟩, ⟨0.55, 0.5, 10000⟩], 10000, ⟨0.5, 0.5, 10000⟩, (0, 0), 0⟩,
     []) := by
  have h : ([((10000 : ℝ), (0.5 : ℝ), (0.5 : ℝ)), (10000, 0.55, 0.5)] :
      List (ℝ × ℝ × ℝ)) = [(10000, 0.5, 0.5)] ++ [(10000, 0.55, 0.5)] := rfl
  rw [h, runSwipe_snoc, swStep0]
  norm_num [detectSwipeGesture, List.dropWhile, Option.getD]

lemma zStep2 : runSwipe [((10000 : ℝ), (0.5 : ℝ), (0.5 : ℝ)), (10000, 0.55, 0.5),
    (10000, 0.6, 0.5)] =
    (some ⟨[⟨0.5, 0.5, 10000⟩, ⟨0.55, 0.5, 10000⟩, ⟨0.6, 0.5, 10000⟩], 10000,
      ⟨0.5, 0.5, 10000⟩, (0, 0), 0⟩, []) := by
  have h : ([((10000 : ℝ), (0.5 : ℝ), (0.5 : ℝ)), (10000, 0.55, 0.5), (10000, 0.6, 0.5)] :
      List (ℝ × ℝ × ℝ)) =
      [(10000, 0.5, 0.5), (10000, 0.55, 0.5)] ++ [(10000, 0.6, 0.5)] := rfl
  rw [h, runSwipe_snoc, zStep1]
  norm_num [detectSwipeGesture, List.dropWhile, Option.getD]

lemma zStep3 : runSwipe [((10000 : ℝ), (0.5 : ℝ), (0.5 : ℝ)), (10000, 0.55, 0.5),
    (10000, 0.6, 0.5), (10000, 0.65, 0.5)] =
    (some ⟨[⟨0.5, 0.5, 10000⟩, ⟨0.55, 0.5, 10000⟩, ⟨0.6, 0.5, 10000⟩, ⟨0.65, 0.5, 10000⟩],
      10000, ⟨0.5, 0.5, 10000⟩, (0, 0), 0⟩, []) := by
  have h : ([((10000 : ℝ), (0.5 : ℝ), (0.5 : ℝ)), (10000, 0.55, 0.5), (10000, 0.6, 0.5),
      (10000, 0.65, 0.5)] : List (ℝ × ℝ × ℝ)) =
      [(10000, 0.5, 0.5), (10000, 0.55, 0.5), (10000, 0.6, 0.5)] ++ [(10000, 0.65, 0.5)] := rfl
  rw [h, runSwipe_snoc, zStep2]
  norm_num [detectSwipeGesture, List.dropWhile, Option.getD]

/-- C10: the swipe detector divides displacement by elapsed time with no
guard against zero: on five well-formed samples sharing one timestamp with
displacement 0.21 > 0.15, the division yields Infinity, the threshold test
`Infinity > 0.5` passes, and a swipe candidate whose speed is the
non-finite value Infinity is emitted to listeners. -/
theorem swipe_zero_elapsed_nonfinite_speed :
    (runSwipe zeroElapsedTimeline).2 =
      [((10000 : ℝ),
        (⟨"swipe", some "right", none, none, some JsNum.inf, none, 0.9⟩ : Gesture))] ∧
    JsNum.isFinite JsNum.inf = false := by
  constructor
  · have hz : detectSwipeGesture ⟨0.71, 0.51, 0⟩ 10000
        (some ⟨[⟨0.5, 0.5, 10000⟩, ⟨0.55, 0.5, 10000⟩, ⟨0.6, 0.5, 10000⟩, ⟨0.65, 0.5, 10000⟩],
          10000, ⟨0.5, 0.5, 10000⟩, (0, 0), 0⟩) =
        (⟨[], 10000, ⟨0.5, 0.5, 10000⟩, (0, 0), 10000⟩,
         some ⟨"swipe", some "right", none, none, some JsNum.inf, none, 0.9⟩) := by
      unfold detectSwipeGesture
      norm_num [List.dropWhile, List.getD, List.get?, jsDiv, jsAbs, jsGt, jsMul, jsAdd,
        jsSqrt, abs_of_pos, abs_of_neg, abs_zero]
    rw [show zeroElapsedTimeline = [((10000 : ℝ), (0.5 : ℝ), (0.5 : ℝ)), (10000, 0.55, 0.5),
        (10000, 0.6, 0.5), (10000, 0.65, 0.5)] ++ [(10000, 0.71, 0.51)] from rfl,
      runSwipe_snoc, zStep3]
    simp only [Prod.mk_zero_zero] at hz
    simp [hz]
  · rfl
